import Mathlib

/-!
Verification of the mission-control-dashboard repository's orchestration spec.

The development shallowly embeds:
* the worker-agent CLI scripts under `agents/` (their `argparse` option
  tables and the print/exit behaviour of their `main` functions),
* the registry seeding scripts `database/seed_core_agents.py` and
  `database/seed_agents.py` (upsert logic over an `agents` table),
* the Phase-4 migration driver `database/migrate_phase4.py`,
* the metadata extractor `extract_agent_metadata` of `database/seed_agents.py`,
* and, where the repository ships only the schema of the orchestration core
  (no engine code exists in the source tree), a workflow-engine state machine
  modelled from the specification text.

Python values, `argparse` namespaces and the agents-table rows are modelled
explicitly; machine-level details (wall-clock time, the actual PostgreSQL
server) are abstracted into explicit state.
-/

set_option maxRecDepth 4000

namespace MissionControl

/-- Python runtime values as they occur in the agent scripts and seeds:
`None`, strings, booleans and integers. -/
inductive PyVal
  | vnone
  | vstr (s : String)
  | vbool (b : Bool)
  | vint (n : Int)
deriving DecidableEq, Repr

/-- Python truthiness (`if x:`): `None`, `''`, `False` and `0` are falsy. -/
def PyVal.truthy : PyVal → Bool
  | .vnone => false
  | .vstr s => s ≠ ""
  | .vbool b => b
  | .vint n => n ≠ 0

/-- How Python's `print(f"... {x} ...")` renders a value. -/
def PyVal.pyStr : PyVal → String
  | .vnone => "None"
  | .vstr s => s
  | .vbool true => "True"
  | .vbool false => "False"
  | .vint n => toString n

/-- An `argparse` namespace: destination name to current value.  All
destinations are present from the start (argparse stores each option's
default before parsing). -/
def NS := List (String × PyVal)
deriving DecidableEq, Repr

/-- Overwrite the value stored under a destination (later occurrences of a
flag override earlier ones, as in argparse). -/
def nsSet (ns : NS) (k : String) (v : PyVal) : NS :=
  (ns : List (String × PyVal)).map (fun p => if p.1 = k then (k, v) else p)

/-- Read a destination; missing keys (which do not occur for parsed
namespaces) read as `None`. -/
def nsGet (ns : NS) (k : String) : PyVal :=
  match (ns : List (String × PyVal)).find? (fun p => p.1 = k) with
  | some p => p.2
  | none => .vnone

/-- One `parser.add_argument(...)` call of an agent script: the accepted
flag spellings, the namespace destination argparse derives from them, the
action (`store_true` or value-taking), `type=int`, `choices=[...]` and the
default value. -/
structure ArgSpec where
  flags : List String
  dest : String
  storeTrue : Bool := false
  isInt : Bool := false
  choices : Option (List String) := none
  dflt : PyVal := .vnone
deriving DecidableEq, Repr

/-- Look up which option a command-line token selects. -/
def findSpec (specs : List ArgSpec) (tok : String) : Option ArgSpec :=
  specs.find? (fun sp => tok ∈ sp.flags)

/-- A token that argparse treats as option-like rather than as an option
value: it starts with `-` and is not a plain negative number (none of the
fleet's option strings look like negative numbers, so argparse lets a
`-123` token through as a value). -/
def optionLike (tok : String) : Bool :=
  match tok.toList with
  | '-' :: rest => ¬ (rest ≠ [] ∧ rest.all Char.isDigit)
  | _ => false

/-- Python `int(...)` on the option-value tokens the model admits
(an optional leading `-` followed by digits). -/
def pyToInt (s : String) : Option Int :=
  match s.toList with
  | '-' :: rest =>
    if rest ≠ [] ∧ rest.all Char.isDigit then
      (String.mk rest).toNat?.map (fun n => -(n : Int))
    else none
  | l =>
    if l ≠ [] ∧ l.all Char.isDigit then (String.mk l).toNat?.map (fun n => (n : Int))
    else none

/-- The namespace argparse starts from: every destination at its default. -/
def initNS (specs : List ArgSpec) : NS :=
  specs.map (fun sp => (sp.dest, sp.dflt))

/-- The `parse_args` loop of the agent scripts, over the subset of argparse
the fleet uses: long/short flags given as separate tokens, `store_true`
actions, string options with optional `choices`, and `type=int` options.
Unknown tokens, missing values, values failing `int(...)` and values
outside `choices` make argparse error out (`sys.exit(2)`). -/
def parseTokens (specs : List ArgSpec) : NS → List String → Except String NS
  | ns, [] => .ok ns
  | ns, tok :: rest =>
    match findSpec specs tok with
    | none => .error ("unrecognized arguments: " ++ tok)
    | some sp =>
      if sp.storeTrue then
        parseTokens specs (nsSet ns sp.dest (.vbool true)) rest
      else
        match rest with
        | [] => .error ("argument " ++ tok ++ ": expected one argument")
        | v :: rest2 =>
          if optionLike v then .error ("argument " ++ tok ++ ": expected one argument")
          else if sp.isInt then
            match pyToInt v with
            | none => .error ("argument " ++ tok ++ ": invalid int value: " ++ v)
            | some n => parseTokens specs (nsSet ns sp.dest (.vint n)) rest2
          else
            match sp.choices with
            | some cs =>
              if v ∈ cs then parseTokens specs (nsSet ns sp.dest (.vstr v)) rest2
              else .error ("argument " ++ tok ++ ": invalid choice: " ++ v)
            | none => parseTokens specs (nsSet ns sp.dest (.vstr v)) rest2

/-- Run a full `parser.parse_args(argv)` from the defaults. -/
def parseArgs (specs : List ArgSpec) (argv : List String) : Except String NS :=
  parseTokens specs (initNS specs) argv

/-- Whether an invocation parses successfully. -/
def Except.isOk {ε α : Type} : Except ε α → Bool
  | .ok _ => true
  | .error _ => false

/-! ### String helpers mirroring the Python operations the scripts use -/

/-- ASCII case folding, the fragment of `str.lower()` the scripts rely on. -/
def asciiLower (c : Char) : Char :=
  if 'A' ≤ c ∧ c ≤ 'Z' then Char.ofNat (c.toNat + 32) else c

/-- Python `s.lower()` on the ASCII data the scripts handle. -/
def pyLower (s : String) : String :=
  String.mk (s.toList.map asciiLower)

/-- Does `pat` occur at the head of `h`? -/
def startsL : List Char → List Char → Bool
  | _, [] => true
  | [], _ :: _ => false
  | c :: h, d :: p => (c = d) && startsL h p

/-- Does the pattern `p` occur anywhere in `h`?  (`Python: p in h`.) -/
def hasSubL (p : List Char) : List Char → Bool
  | [] => startsL [] p
  | c :: t => startsL (c :: t) p || hasSubL p t

/-- Python's `pat in s` substring test. -/
def strHas (s pat : String) : Bool :=
  hasSubL pat.toList s.toList

/-- Index of the last occurrence of `c` in `l`, if any. -/
def lastIdx (l : List Char) (c : Char) : Option Nat :=
  ((l.enum.filter (fun p => p.2 = c)).getLast?).map (fun p => p.1)

/-- The extension component `os.path.splitext(p)[1]`: the suffix from the
last dot of the final path component, unless every character before that
dot in the component is itself a dot. -/
def splitextExt (p : String) : String :=
  let l := p.toList
  let fstart : Nat := match lastIdx l '/' with
    | none => 0
    | some s => s + 1
  match lastIdx l '.' with
  | none => ""
  | some d =>
    if d ≥ fstart ∧ ((l.drop fstart).take (d - fstart)).any (fun c => c ≠ '.') then
      String.mk (l.drop d)
    else ""

/-! ### The behaviour of the agent scripts' `main` functions

Each `main` parses its arguments and then only prints lines and returns 0.
The print/branch structure is embedded as a small statement language so
that the sixteen scripts stay an obviously line-by-line transcription of
the Python source and so that "which namespace fields does this script
read" is a syntactic function of the program. -/

/-- String-valued expressions occurring in the scripts' f-strings:
literals, namespace reads, concatenation, `.lower()` and
`os.path.splitext(...)[1]`. -/
inductive SExpr
  | lit (s : String)
  | var (k : String)
  | cat (a b : SExpr)
  | low (e : SExpr)
  | extOf (e : SExpr)
deriving DecidableEq, Repr

/-- Conditions occurring in the scripts: truthiness of a namespace field,
string equality, membership in a literal list, substring containment and
short-circuit `and`. -/
inductive BExpr
  | truthy (k : String)
  | eqS (e : SExpr) (s : String)
  | memS (e : SExpr) (ss : List String)
  | hasS (pat : String) (e : SExpr)
  | band (a b : BExpr)
deriving DecidableEq, Repr

/-- The statement fragment the scripts use after parsing: `print`,
sequencing and `if`/`elif`/`else`. -/
inductive Stmt
  | skip
  | pr (e : SExpr)
  | seq (a b : Stmt)
  | ite (c : BExpr) (t e : Stmt)
deriving DecidableEq, Repr

/-- Evaluate a string expression against the parsed namespace. -/
def evalS (ns : NS) : SExpr → String
  | .lit s => s
  | .var k => (nsGet ns k).pyStr
  | .cat a b => evalS ns a ++ evalS ns b
  | .low e => pyLower (evalS ns e)
  | .extOf e => splitextExt (evalS ns e)

/-- Evaluate a condition against the parsed namespace. -/
def evalB (ns : NS) : BExpr → Bool
  | .truthy k => (nsGet ns k).truthy
  | .eqS e s => evalS ns e = s
  | .memS e ss => evalS ns e ∈ ss
  | .hasS pat e => strHas (evalS ns e) pat
  | .band a b => evalB ns a && evalB ns b

/-- Execute a statement: the list of printed lines, in order. -/
def exec (ns : NS) : Stmt → List String
  | .skip => []
  | .pr e => [evalS ns e]
  | .seq a b => exec ns a ++ exec ns b
  | .ite c t e => if evalB ns c then exec ns t else exec ns e

/-- Namespace fields a string expression reads. -/
def keysS : SExpr → List String
  | .lit _ => []
  | .var k => [k]
  | .cat a b => keysS a ++ keysS b
  | .low e => keysS e
  | .extOf e => keysS e

/-- Namespace fields a condition reads. -/
def keysB : BExpr → List String
  | .truthy k => [k]
  | .eqS e _ => keysS e
  | .memS e _ => keysS e
  | .hasS _ e => keysS e
  | .band a b => keysB a ++ keysB b

/-- Namespace fields a statement reads. -/
def keysStmt : Stmt → List String
  | .skip => []
  | .pr e => keysS e
  | .seq a b => keysStmt a ++ keysStmt b
  | .ite c t e => keysB c ++ keysStmt t ++ keysStmt e

/-- Lines a statement prints on every control path (the literal prints
outside every `if`). -/
def uncondLines : Stmt → List String
  | .skip => []
  | .pr (.lit s) => [s]
  | .pr _ => []
  | .seq a b => uncondLines a ++ uncondLines b
  | .ite _ _ _ => []

/-- `print(lit)` -/
def prl (s : String) : Stmt := .pr (.lit s)

/-- `print(f"<pre>{args.<key>}")` -/
def prv (pre key : String) : Stmt := .pr (.cat (.lit pre) (.var key))

/-- Sequence a block of statements. -/
def seqs (l : List Stmt) : Stmt := l.foldr .seq .skip

/-- One agent script: its registry name, its file under `agents/`, its
argparse option table and its post-parse behaviour. -/
structure AgentProgram where
  name : String
  scriptFile : String
  specs : List ArgSpec
  prog : Stmt
deriving DecidableEq, Repr

/-- Run an agent on a parsed namespace: the printed lines and the exit
status (`main` ends in `return 0` on every path in all sixteen scripts). -/
def runAgent (p : AgentProgram) (ns : NS) : List String × Nat :=
  (exec ns p.prog, 0)

/-! ### The sixteen agent scripts, transcribed from `agents/` -/

/-- The `--model` choices shared by every script. -/
def modelChoices : List String := ["gpt-4o-mini", "gpt-5-mini", "gpt-5.2"]

/-- Option table of `agents/architect_planner.py`. -/
def architectSpecs : List ArgSpec := [
  { flags := ["--model"], dest := "model", choices := some modelChoices, dflt := .vstr "gpt-5.2" },
  { flags := ["--dry-run"], dest := "dry_run", storeTrue := true, dflt := .vbool false },
  { flags := ["-v", "--verbose"], dest := "verbose", storeTrue := true, dflt := .vbool false },
  { flags := ["--project-name"], dest := "project_name" },
  { flags := ["--requirements"], dest := "requirements" }]

/-- Body of `main` in `agents/architect_planner.py` after `parse_args`. -/
def architectProg : Stmt := seqs [
  .ite (.truthy "verbose") (seqs [
    prv "[Architect Planner] Starting with model: " "model",
    .ite (.truthy "project_name") (prv "[Architect Planner] Project: " "project_name") .skip]) .skip,
  prl "⚠️  Placeholder agent - implementation pending",
  prl "This agent will be refined by the CEO Agent when first used.",
  prl "\nCapabilities:",
  prl "  - System architecture design",
  prl "  - Database schema planning",
  prl "  - API design (REST/GraphQL)",
  prl "  - README creation"]

/-- Option table of `agents/code_executioner.py`. -/
def codeExecSpecs : List ArgSpec := [
  { flags := ["--model"], dest := "model", choices := some modelChoices, dflt := .vstr "gpt-5-mini" },
  { flags := ["--include-tests"], dest := "include_tests", storeTrue := true, dflt := .vbool false },
  { flags := ["--dry-run"], dest := "dry_run", storeTrue := true, dflt := .vbool false },
  { flags := ["-v", "--verbose"], dest := "verbose", storeTrue := true, dflt := .vbool false },
  { flags := ["--language"], dest := "language",
    choices := some ["python", "javascript", "typescript"], dflt := .vstr "python" }]

/-- Body of `main` in `agents/code_executioner.py`. -/
def codeExecProg : Stmt := seqs [
  .ite (.truthy "verbose") (seqs [
    prv "[Code Executioner] Starting with model: " "model",
    prv "[Code Executioner] Language: " "language",
    .ite (.truthy "include_tests") (prl "[Code Executioner] Will include tests") .skip]) .skip,
  prl "⚠️  Placeholder agent - implementation pending",
  prl "This agent will be refined by the CEO Agent when first used.",
  prl "\nCapabilities:",
  prl "  - Code generation (Python, JS, TS)",
  prl "  - Bug fixing and debugging",
  prl "  - Test writing",
  prl "  - Code refactoring"]

/-- Option table of `agents/ui_ux_designer.py`. -/
def uiUxSpecs : List ArgSpec := [
  { flags := ["--model"], dest := "model", choices := some modelChoices, dflt := .vstr "gpt-5-mini" },
  { flags := ["--brand"], dest := "brand", dflt := .vstr "SchooLinks" },
  { flags := ["--dry-run"], dest := "dry_run", storeTrue := true, dflt := .vbool false },
  { flags := ["-v", "--verbose"], dest := "verbose", storeTrue := true, dflt := .vbool false },
  { flags := ["--component-type"], dest := "component_type" }]

/-- Body of `main` in `agents/ui_ux_designer.py`. -/
def uiUxProg : Stmt := seqs [
  .ite (.truthy "verbose") (seqs [
    prv "[UI/UX Designer] Starting with model: " "model",
    prv "[UI/UX Designer] Brand: " "brand"]) .skip,
  prl "⚠️  Placeholder agent - implementation pending",
  prl "This agent will be refined by the CEO Agent when first used.",
  prl "\nCapabilities:",
  prl "  - UI component design",
  prl "  - CSS/Tailwind styling",
  prl "  - WCAG accessibility",
  prl "  - Brand consistency (SchooLinks #00A8E1)"]

/-- Option table of `agents/pdf_ocr_parser.py`. -/
def pdfOcrSpecs : List ArgSpec := [
  { flags := ["--input"], dest := "input" },
  { flags := ["--input-dir"], dest := "input_dir" },
  { flags := ["--url"], dest := "url" },
  { flags := ["--ocr-engine"], dest := "ocr_engine",
    choices := some ["tesseract", "vision", "hybrid"], dflt := .vstr "tesseract" },
  { flags := ["--language"], dest := "language", dflt := .vstr "eng" },
  { flags := ["--dpi"], dest := "dpi", isInt := true, dflt := .vint 300 },
  { flags := ["--extract-tables"], dest := "extract_tables", storeTrue := true, dflt := .vbool false },
  { flags := ["--extract-forms"], dest := "extract_forms", storeTrue := true, dflt := .vbool false },
  { flags := ["--extract-images"], dest := "extract_images", storeTrue := true, dflt := .vbool false },
  { flags := ["--extract-metadata"], dest := "extract_metadata", storeTrue := true, dflt := .vbool false },
  { flags := ["--ai-reasoning"], dest := "ai_reasoning", storeTrue := true, dflt := .vbool false },
  { flags := ["--extract-entities"], dest := "extract_entities", storeTrue := true, dflt := .vbool false },
  { flags := ["--classify"], dest := "classify", storeTrue := true, dflt := .vbool false },
  { flags := ["--summarize"], dest := "summarize", storeTrue := true, dflt := .vbool false },
  { flags := ["--model"], dest := "model", choices := some modelChoices, dflt := .vstr "gpt-5-mini" },
  { flags := ["--output"], dest := "output" },
  { flags := ["--output-dir"], dest := "output_dir" },
  { flags := ["--output-format"], dest := "output_format",
    choices := some ["json", "markdown", "csv", "text"], dflt := .vstr "json" },
  { flags := ["--dry-run"], dest := "dry_run", storeTrue := true, dflt := .vbool false },
  { flags := ["-v", "--verbose"], dest := "verbose", storeTrue := true, dflt := .vbool false },
  { flags := ["--quality"], dest := "quality",
    choices := some ["fast", "standard", "high"], dflt := .vstr "standard" }]

/-- Body of `main` in `agents/pdf_ocr_parser.py`. -/
def pdfOcrProg : Stmt := seqs [
  .ite (.truthy "verbose") (seqs [
    prv "[PDF/OCR Parser] Starting with model: " "model",
    prv "[PDF/OCR Parser] OCR Engine: " "ocr_engine",
    prv "[PDF/OCR Parser] Output Format: " "output_format",
    .ite (.truthy "input") (prv "[PDF/OCR Parser] Input: " "input") .skip,
    .ite (.truthy "ai_reasoning") (prl "[PDF/OCR Parser] AI Reasoning: ENABLED") .skip,
    .ite (.truthy "extract_tables") (prl "[PDF/OCR Parser] Table Extraction: ENABLED") .skip]) .skip,
  prl "⚠️  Placeholder agent - implementation pending",
  prl "This agent will be refined by the CEO Agent when first used.",
  prl "\n🔍 Capabilities:",
  prl "\n  📄 PDF Processing:",
  prl "    - Native text extraction (searchable PDFs)",
  prl "    - Scanned document OCR",
  prl "    - Multi-page processing",
  prl "    - Page-by-page analysis",
  prl "\n  🖼️  Image Processing:",
  prl "    - OCR on JPG, PNG, TIFF, BMP",
  prl "    - Handwritten text recognition",
  prl "    - Complex layout handling",
  prl "    - Multi-page TIFF support",
  prl "\n  📊 Structured Data:",
  prl "    - Table extraction and CSV export",
  prl "    - Form field detection",
  prl "    - Checkbox and radio button detection",
  prl "    - Signature detection",
  prl "\n  🤖 AI Reasoning:",
  prl "    - Content understanding and analysis",
  prl "    - Entity extraction (NER)",
  prl "    - Document classification",
  prl "    - Content summarization",
  prl "    - Key information extraction",
  prl "    - Sentiment analysis",
  prl "\n  🌍 Advanced Features:",
  prl "    - 100+ language support",
  prl "    - Batch processing",
  prl "    - Quality optimization",
  prl "    - Error recovery",
  prl "    - Progress tracking",
  .ite (.truthy "input")
    (.ite (.eqS (.low (.extOf (.var "input"))) ".pdf")
      (seqs [
        prv "\n📄 Would process PDF: " "input",
        .ite (.eqS (.var "ocr_engine") "vision")
          (prl "   Using OpenAI Vision API for best quality") .skip])
      (.ite (.memS (.low (.extOf (.var "input"))) [".jpg", ".jpeg", ".png", ".tiff", ".bmp"])
        (seqs [
          prv "\n🖼️  Would process image: " "input",
          prv "   OCR Language: " "language"])
        (.pr (.cat (.lit "\n⚠️  Unknown file type: ") (.low (.extOf (.var "input")))))))
    .skip,
  .ite (.truthy "ai_reasoning")
    (seqs [
      prl "\n🧠 AI Analysis would include:",
      prl "   - Document type classification",
      prl "   - Key entity extraction",
      prl "   - Content structuring",
      .ite (.truthy "summarize") (prl "   - Executive summary generation") .skip]) .skip,
  .ite (.truthy "extract_tables")
    (seqs [
      prl "\n📊 Table extraction would:",
      prl "   - Detect table boundaries",
      prl "   - Extract rows and columns",
      prl "   - Export to CSV/JSON"]) .skip]

/-- Option table of `agents/research_scientist.py`. -/
def researchSpecs : List ArgSpec := [
  { flags := ["--model"], dest := "model", choices := some modelChoices, dflt := .vstr "gpt-5.2" },
  { flags := ["--topic"], dest := "topic" },
  { flags := ["--dry-run"], dest := "dry_run", storeTrue := true, dflt := .vbool false },
  { flags := ["-v", "--verbose"], dest := "verbose", storeTrue := true, dflt := .vbool false }]

/-- Body of `main` in `agents/research_scientist.py`. -/
def researchProg : Stmt := seqs [
  .ite (.truthy "verbose") (seqs [
    prv "[Research Scientist] Starting with model: " "model",
    .ite (.truthy "topic") (prv "[Research Scientist] Topic: " "topic") .skip]) .skip,
  prl "⚠️  Placeholder agent - implementation pending",
  prl "This agent will be refined by the CEO Agent when first used.",
  prl "\nCapabilities:",
  prl "  - Technology research",
  prl "  - Code review",
  prl "  - Best practices analysis",
  prl "  - Emerging tech assessment"]

/-- Option table of `agents/google_api_specialist.py`. -/
def googleSpecs : List ArgSpec := [
  { flags := ["--model"], dest := "model", choices := some modelChoices, dflt := .vstr "gpt-4o-mini" },
  { flags := ["--service"], dest := "service",
    choices := some ["drive", "sheets", "calendar", "oauth"] },
  { flags := ["--dry-run"], dest := "dry_run", storeTrue := true, dflt := .vbool false },
  { flags := ["-v", "--verbose"], dest := "verbose", storeTrue := true, dflt := .vbool false }]

/-- Body of `main` in `agents/google_api_specialist.py`. -/
def googleProg : Stmt := seqs [
  .ite (.truthy "verbose") (seqs [
    prv "[Google API Specialist] Starting with model: " "model",
    .ite (.truthy "service") (prv "[Google API Specialist] Service: " "service") .skip]) .skip,
  prl "⚠️  Placeholder agent - implementation pending",
  prl "This agent will be refined by the CEO Agent when first used.",
  prl "\nCapabilities:",
  prl "  - Google Drive integration",
  prl "  - Google Sheets integration",
  prl "  - Google Calendar integration",
  prl "  - OAuth 2.0 setup"]

/-- Option table of `agents/meta_api_specialist.py`. -/
def metaSpecs : List ArgSpec := [
  { flags := ["--model"], dest := "model", choices := some modelChoices, dflt := .vstr "gpt-4o-mini" },
  { flags := ["--platform"], dest := "platform",
    choices := some ["facebook", "instagram", "both"] },
  { flags := ["--dry-run"], dest := "dry_run", storeTrue := true, dflt := .vbool false },
  { flags := ["-v", "--verbose"], dest := "verbose", storeTrue := true, dflt := .vbool false }]

/-- Body of `main` in `agents/meta_api_specialist.py`. -/
def metaProg : Stmt := seqs [
  .ite (.truthy "verbose") (seqs [
    prv "[Meta API Specialist] Starting with model: " "model",
    .ite (.truthy "platform") (prv "[Meta API Specialist] Platform: " "platform") .skip]) .skip,
  prl "⚠️  Placeholder agent - implementation pending",
  prl "This agent will be refined by the CEO Agent when first used.",
  prl "\nCapabilities:",
  prl "  - Facebook Ads management",
  prl "  - Instagram integration",
  prl "  - Audience targeting",
  prl "  - Ad analytics"]

/-- Option table of `agents/groundtruth_api_specialist.py`. -/
def groundtruthSpecs : List ArgSpec := [
  { flags := ["--model"], dest := "model", choices := some modelChoices, dflt := .vstr "gpt-4o-mini" },
  { flags := ["--action"], dest := "action",
    choices := some ["sync", "report", "validate"] },
  { flags := ["--dry-run"], dest := "dry_run", storeTrue := true, dflt := .vbool false },
  { flags := ["-v", "--verbose"], dest := "verbose", storeTrue := true, dflt := .vbool false }]

/-- Body of `main` in `agents/groundtruth_api_specialist.py`. -/
def groundtruthProg : Stmt := seqs [
  .ite (.truthy "verbose") (seqs [
    prv "[Ground Truth API Specialist] Starting with model: " "model",
    .ite (.truthy "action") (prv "[Ground Truth API Specialist] Action: " "action") .skip]) .skip,
  prl "⚠️  Placeholder agent - implementation pending",
  prl "This agent will be refined by the CEO Agent when first used.",
  prl "\nCapabilities:",
  prl "  - Student data sync",
  prl "  - Academic reporting",
  prl "  - FERPA compliance validation",
  prl "  - Educational data integration"]

/-- Option table of `agents/hubspot_api_specialist.py`. -/
def hubspotSpecs : List ArgSpec := [
  { flags := ["--model"], dest := "model", choices := some modelChoices, dflt := .vstr "gpt-4o-mini" },
  { flags := ["--api-type"], dest := "api_type",
    choices := some ["crm", "marketing", "content", "analytics"] },
  { flags := ["--auth-method"], dest := "auth_method",
    choices := some ["private-app", "oauth", "api-key"], dflt := .vstr "private-app" },
  { flags := ["--action"], dest := "action",
    choices := some ["sync", "extract", "create-campaign", "manage-workflow", "report"] },
  { flags := ["--entity"], dest := "entity",
    choices := some ["contacts", "companies", "deals", "emails", "forms"] },
  { flags := ["--url"], dest := "url" },
  { flags := ["--template"], dest := "template" },
  { flags := ["--dry-run"], dest := "dry_run", storeTrue := true, dflt := .vbool false },
  { flags := ["-v", "--verbose"], dest := "verbose", storeTrue := true, dflt := .vbool false }]

/-- Body of `main` in `agents/hubspot_api_specialist.py`. -/
def hubspotProg : Stmt := seqs [
  .ite (.truthy "verbose") (seqs [
    prv "[HubSpot API Specialist] Starting with model: " "model",
    .ite (.truthy "api_type") (prv "[HubSpot API Specialist] API Type: " "api_type") .skip,
    .ite (.truthy "action") (prv "[HubSpot API Specialist] Action: " "action") .skip,
    .ite (.truthy "auth_method") (prv "[HubSpot API Specialist] Auth: " "auth_method") .skip]) .skip,
  prl "⚠️  Placeholder agent - implementation pending",
  prl "This agent will be refined by the CEO Agent when first used.",
  prl "\nCapabilities:",
  prl "  🔹 CRM:",
  prl "    - Contact/company management",
  prl "    - Deal pipeline automation",
  prl "  🔹 Marketing:",
  prl "    - Email campaigns",
  prl "    - Landing pages",
  prl "    - Blog posts",
  prl "    - Forms",
  prl "    - Workflow automation",
  prl "  🔹 Content:",
  prl "    - HubSpot PDF extraction",
  prl "    - Web page content extraction",
  prl "    - Content enrichment",
  prl "  🔹 Analytics:",
  prl "    - Reporting and insights",
  .ite (.band (.truthy "url") (.hasS "hubspot" (.var "url")))
    (seqs [
      prv "\n📄 Would extract content from: " "url",
      .ite (.hasS ".pdf" (.low (.var "url")))
        (prl "   Type: HubSpot PDF (used in marketing portal enrichment)") .skip]) .skip]

/-- Option table of `agents/webflow_api_specialist.py`. -/
def webflowSpecs : List ArgSpec := [
  { flags := ["--api-token"], dest := "api_token" },
  { flags := ["--site-id"], dest := "site_id" },
  { flags := ["--api-type"], dest := "api_type",
    choices := some ["cms", "sites", "pages", "assets", "forms", "ecommerce", "webhooks"],
    dflt := .vstr "cms" },
  { flags := ["--action"], dest := "action",
    choices := some ["list-collections", "get-collection", "create-collection",
      "list-items", "get-item", "create-item", "update-item", "delete-item",
      "publish-site", "get-site-info",
      "import-items", "export-items", "sync-landing-pages", "sync-resources",
      "setup-webhook", "list-webhooks", "delete-webhook",
      "upload-asset", "list-assets",
      "list-forms", "get-submissions"] },
  { flags := ["--collection-id"], dest := "collection_id" },
  { flags := ["--item-id"], dest := "item_id" },
  { flags := ["--fields"], dest := "fields" },
  { flags := ["--limit"], dest := "limit", isInt := true, dflt := .vint 100 },
  { flags := ["--offset"], dest := "offset", isInt := true, dflt := .vint 0 },
  { flags := ["--webhook-url"], dest := "webhook_url" },
  { flags := ["--trigger-type"], dest := "trigger_type",
    choices := some ["collection_item_created", "collection_item_changed",
      "collection_item_deleted", "site_publish"] },
  { flags := ["--types"], dest := "types" },
  { flags := ["--db-table"], dest := "db_table" },
  { flags := ["--include-unpublished"], dest := "include_unpublished",
    storeTrue := true, dflt := .vbool false },
  { flags := ["--output"], dest := "output" },
  { flags := ["--output-format"], dest := "output_format",
    choices := some ["json", "csv", "markdown"], dflt := .vstr "json" },
  { flags := ["--model"], dest := "model", choices := some modelChoices, dflt := .vstr "gpt-4o-mini" },
  { flags := ["--enrich"], dest := "enrich", storeTrue := true, dflt := .vbool false },
  { flags := ["--dry-run"], dest := "dry_run", storeTrue := true, dflt := .vbool false },
  { flags := ["-v", "--verbose"], dest := "verbose", storeTrue := true, dflt := .vbool false }]

/-- Body of `main` in `agents/webflow_api_specialist.py`. -/
def webflowProg : Stmt := seqs [
  .ite (.truthy "verbose") (seqs [
    prv "[Webflow API Specialist] Starting with model: " "model",
    prv "[Webflow API Specialist] API Type: " "api_type",
    .ite (.truthy "action") (prv "[Webflow API Specialist] Action: " "action") .skip,
    .ite (.truthy "site_id") (prv "[Webflow API Specialist] Site ID: " "site_id") .skip,
    .ite (.truthy "collection_id") (prv "[Webflow API Specialist] Collection ID: " "collection_id") .skip]) .skip,
  prl "⚠️  Placeholder agent - implementation pending",
  prl "This agent will be refined by the CEO Agent when first used.",
  prl "\n🔷 Webflow Capabilities:",
  prl "\n  📦 CMS Collections & Items:",
  prl "    - List/create/update/delete collections",
  prl "    - CRUD operations on CMS items",
  prl "    - Bulk import/export",
  prl "    - Field mapping and validation",
  prl "\n  🌐 Site Management:",
  prl "    - Site info and settings",
  prl "    - Publishing and deployment",
  prl "    - Domain management",
  prl "    - Custom code injection",
  prl "\n  📄 Pages & Assets:",
  prl "    - Page CRUD operations",
  prl "    - Asset upload and management",
  prl "    - Image optimization",
  prl "    - File organization",
  prl "\n  📋 Forms & Submissions:",
  prl "    - Form listing",
  prl "    - Submission retrieval",
  prl "    - Export to CSV/database",
  prl "\n  🔔 Webhooks:",
  prl "    - Real-time event notifications",
  prl "    - Automatic content sync",
  prl "    - Trigger-based automation",
  prl "\n  🛒 E-commerce (if applicable):",
  prl "    - Product management",
  prl "    - Order processing",
  prl "    - Inventory tracking",
  prl "\n  📚 Marketing Portal Use Cases:",
  prl "    - Import resources (blog, video, webinar, ebook)",
  prl "    - Sync landing pages to database",
  prl "    - Real-time webhook updates",
  prl "    - Content type mapping",
  prl "    - Automatic enrichment",
  .ite (.truthy "action")
    (seqs [
      prv "\n🎯 Would perform action: " "action",
      .ite (.band (.eqS (.var "action") "import-items") (.truthy "collection_id"))
        (seqs [
          prv "   Collection: " "collection_id",
          prv "   Limit: " "limit",
          .ite (.truthy "enrich") (prl "   AI Enrichment: ENABLED") .skip])
        (.ite (.eqS (.var "action") "sync-landing-pages")
          (seqs [
            prl "   Would sync published landing pages",
            .ite (.truthy "db_table") (prv "   Target table: " "db_table") .skip])
          (.ite (.band (.eqS (.var "action") "setup-webhook") (.truthy "webhook_url"))
            (seqs [
              prv "   Webhook URL: " "webhook_url",
              .ite (.truthy "trigger_type") (prv "   Trigger: " "trigger_type") .skip])
            (.ite (.eqS (.var "action") "sync-resources")
              (seqs [
                prl "   Would sync all marketing resources",
                .ite (.truthy "types") (prv "   Types: " "types") .skip])
              .skip)))]) .skip,
  .ite (.truthy "output")
    (.pr (.cat (.cat (.cat (.lit "\n💾 Output: ") (.var "output")) (.lit " ("))
      (.cat (.var "output_format") (.lit ")")))) .skip]

/-- Option table of `agents/database_architect.py`. -/
def databaseArchSpecs : List ArgSpec := [
  { flags := ["--model"], dest := "model", choices := some modelChoices, dflt := .vstr "gpt-5-mini" },
  { flags := ["--action"], dest := "action",
    choices := some ["schema", "migration", "optimize"] },
  { flags := ["--dry-run"], dest := "dry_run", storeTrue := true, dflt := .vbool false },
  { flags := ["-v", "--verbose"], dest := "verbose", storeTrue := true, dflt := .vbool false }]

/-- Body of `main` in `agents/database_architect.py`. -/
def databaseArchProg : Stmt := seqs [
  .ite (.truthy "verbose") (seqs [
    prv "[Database Architect] Starting with model: " "model",
    .ite (.truthy "action") (prv "[Database Architect] Action: " "action") .skip]) .skip,
  prl "⚠️  Placeholder agent - implementation pending",
  prl "This agent will be refined by the CEO Agent when first used.",
  prl "\nCapabilities:",
  prl "  - PostgreSQL schema design",
  prl "  - Supabase integration",
  prl "  - Migration creation",
  prl "  - Query optimization"]

/-- Option table of `agents/deployment_engineer.py`. -/
def deploymentSpecs : List ArgSpec := [
  { flags := ["--model"], dest := "model", choices := some modelChoices, dflt := .vstr "gpt-4o-mini" },
  { flags := ["--platform"], dest := "platform",
    choices := some ["vercel", "github-actions", "env-config"] },
  { flags := ["--dry-run"], dest := "dry_run", storeTrue := true, dflt := .vbool false },
  { flags := ["-v", "--verbose"], dest := "verbose", storeTrue := true, dflt := .vbool false }]

/-- Body of `main` in `agents/deployment_engineer.py`. -/
def deploymentProg : Stmt := seqs [
  .ite (.truthy "verbose") (seqs [
    prv "[Deployment Engineer] Starting with model: " "model",
    .ite (.truthy "platform") (prv "[Deployment Engineer] Platform: " "platform") .skip]) .skip,
  prl "⚠️  Placeholder agent - implementation pending",
  prl "This agent will be refined by the CEO Agent when first used.",
  prl "\nCapabilities:",
  prl "  - Vercel deployment",
  prl "  - GitHub Actions workflows",
  prl "  - Environment config",
  prl "  - CI/CD pipeline setup"]

/-- Option table of `agents/qa_tester.py`. -/
def qaSpecs : List ArgSpec := [
  { flags := ["--model"], dest := "model", choices := some modelChoices, dflt := .vstr "gpt-4o-mini" },
  { flags := ["--test-type"], dest := "test_type",
    choices := some ["unit", "integration", "e2e"] },
  { flags := ["--dry-run"], dest := "dry_run", storeTrue := true, dflt := .vbool false },
  { flags := ["-v", "--verbose"], dest := "verbose", storeTrue := true, dflt := .vbool false }]

/-- Body of `main` in `agents/qa_tester.py`. -/
def qaProg : Stmt := seqs [
  .ite (.truthy "verbose") (seqs [
    prv "[QA Tester] Starting with model: " "model",
    .ite (.truthy "test_type") (prv "[QA Tester] Test type: " "test_type") .skip]) .skip,
  prl "⚠️  Placeholder agent - implementation pending",
  prl "This agent will be refined by the CEO Agent when first used.",
  prl "\nCapabilities:",
  prl "  - Unit testing",
  prl "  - Integration testing",
  prl "  - E2E testing",
  prl "  - Bug verification"]

/-- Option table of `agents/technical_writer.py`. -/
def techWriterSpecs : List ArgSpec := [
  { flags := ["--model"], dest := "model", choices := some modelChoices, dflt := .vstr "gpt-4o-mini" },
  { flags := ["--doc-type"], dest := "doc_type",
    choices := some ["api", "user-guide", "readme", "comments"] },
  { flags := ["--dry-run"], dest := "dry_run", storeTrue := true, dflt := .vbool false },
  { flags := ["-v", "--verbose"], dest := "verbose", storeTrue := true, dflt := .vbool false }]

/-- Body of `main` in `agents/technical_writer.py`. -/
def techWriterProg : Stmt := seqs [
  .ite (.truthy "verbose") (seqs [
    prv "[Technical Writer] Starting with model: " "model",
    .ite (.truthy "doc_type") (prv "[Technical Writer] Doc type: " "doc_type") .skip]) .skip,
  prl "⚠️  Placeholder agent - implementation pending",
  prl "This agent will be refined by the CEO Agent when first used.",
  prl "\nCapabilities:",
  prl "  - API documentation",
  prl "  - User guides",
  prl "  - README creation",
  prl "  - Code comments"]

/-- Option table of `agents/security_auditor.py`. -/
def securitySpecs : List ArgSpec := [
  { flags := ["--model"], dest := "model", choices := some modelChoices, dflt := .vstr "gpt-5-mini" },
  { flags := ["--audit-type"], dest := "audit_type",
    choices := some ["auth", "data", "owasp", "full"] },
  { flags := ["--dry-run"], dest := "dry_run", storeTrue := true, dflt := .vbool false },
  { flags := ["-v", "--verbose"], dest := "verbose", storeTrue := true, dflt := .vbool false }]

/-- Body of `main` in `agents/security_auditor.py`. -/
def securityProg : Stmt := seqs [
  .ite (.truthy "verbose") (seqs [
    prv "[Security Auditor] Starting with model: " "model",
    .ite (.truthy "audit_type") (prv "[Security Auditor] Audit type: " "audit_type") .skip]) .skip,
  prl "⚠️  Placeholder agent - implementation pending",
  prl "This agent will be refined by the CEO Agent when first used.",
  prl "\nCapabilities:",
  prl "  - Vulnerability scanning",
  prl "  - Auth validation",
  prl "  - Data security audit",
  prl "  - OWASP compliance"]

/-- Option table of `agents/performance_optimizer.py`. -/
def performanceSpecs : List ArgSpec := [
  { flags := ["--model"], dest := "model", choices := some modelChoices, dflt := .vstr "gpt-5-mini" },
  { flags := ["--target"], dest := "target",
    choices := some ["frontend", "backend", "database", "all"] },
  { flags := ["--dry-run"], dest := "dry_run", storeTrue := true, dflt := .vbool false },
  { flags := ["-v", "--verbose"], dest := "verbose", storeTrue := true, dflt := .vbool false }]

/-- Body of `main` in `agents/performance_optimizer.py`. -/
def performanceProg : Stmt := seqs [
  .ite (.truthy "verbose") (seqs [
    prv "[Performance Optimizer] Starting with model: " "model",
    .ite (.truthy "target") (prv "[Performance Optimizer] Target: " "target") .skip]) .skip,
  prl "⚠️  Placeholder agent - implementation pending",
  prl "This agent will be refined by the CEO Agent when first used.",
  prl "\nCapabilities:",
  prl "  - Frontend optimization",
  prl "  - Backend optimization",
  prl "  - Query optimization",
  prl "  - Lighthouse improvements"]

/-- The sixteen agent scripts of the fleet, paired with the registry names
`seed_core_agents.py` registers them under. -/
def fleet : List AgentProgram := [
  { name := "architect-planner", scriptFile := "architect_planner.py",
    specs := architectSpecs, prog := architectProg },
  { name := "code-executioner", scriptFile := "code_executioner.py",
    specs := codeExecSpecs, prog := codeExecProg },
  { name := "ui-ux-designer", scriptFile := "ui_ux_designer.py",
    specs := uiUxSpecs, prog := uiUxProg },
  { name := "pdf-ocr-parser", scriptFile := "pdf_ocr_parser.py",
    specs := pdfOcrSpecs, prog := pdfOcrProg },
  { name := "research-scientist", scriptFile := "research_scientist.py",
    specs := researchSpecs, prog := researchProg },
  { name := "google-api-specialist", scriptFile := "google_api_specialist.py",
    specs := googleSpecs, prog := googleProg },
  { name := "meta-api-specialist", scriptFile := "meta_api_specialist.py",
    specs := metaSpecs, prog := metaProg },
  { name := "groundtruth-api-specialist", scriptFile := "groundtruth_api_specialist.py",
    specs := groundtruthSpecs, prog := groundtruthProg },
  { name := "hubspot-api-specialist", scriptFile := "hubspot_api_specialist.py",
    specs := hubspotSpecs, prog := hubspotProg },
  { name := "webflow-api-specialist", scriptFile := "webflow_api_specialist.py",
    specs := webflowSpecs, prog := webflowProg },
  { name := "database-architect", scriptFile := "database_architect.py",
    specs := databaseArchSpecs, prog := databaseArchProg },
  { name := "deployment-engineer", scriptFile := "deployment_engineer.py",
    specs := deploymentSpecs, prog := deploymentProg },
  { name := "qa-tester", scriptFile := "qa_tester.py",
    specs := qaSpecs, prog := qaProg },
  { name := "technical-writer", scriptFile := "technical_writer.py",
    specs := techWriterSpecs, prog := techWriterProg },
  { name := "security-auditor", scriptFile := "security_auditor.py",
    specs := securitySpecs, prog := securityProg },
  { name := "performance-optimizer", scriptFile := "performance_optimizer.py",
    specs := performanceSpecs, prog := performanceProg }]

/-! ### The agent registry and the two seeding scripts -/

/-- One entry of the `CORE_AGENTS` catalog in
`database/seed_core_agents.py`.  `estimated_cost` is a dollar amount in the
source (`0.15` etc.); it is carried here in cents so the embedding stays in
`Nat`. -/
structure AgentDescriptor where
  name : String
  description : String
  script_path : String
  language : String
  parameters : List (String × PyVal)
  tags : List String
  default_schedule : Option String
  estimated_cost_cents : Nat
  capabilities : List String
deriving DecidableEq, Repr

/-- A row of the `agents` table.  `rid` is the serial primary key.  The
seeds never write a cost column, so a freshly inserted row carries
`estimated_cost = none`.  `otherCols` — modelled from the spec: the
`agents` table's schema file is not part of the source tree, and §6 of the
spec says re-seeding "must not ... lose manually edited fields that are
outside the managed set"; this field stands for any such further columns. -/
structure AgentRow where
  rid : Nat
  project_id : Nat
  name : String
  description : String
  script_path : String
  language : String
  parameters : List (String × PyVal)
  tags : List String
  default_schedule : Option String
  estimated_cost : Option Nat
  otherCols : List (String × String)
deriving DecidableEq, Repr

/-- Row filter of the existence check
`SELECT id FROM agents WHERE name = %s AND project_id = %s`. -/
def rowKey (pid : Nat) (nm : String) (r : AgentRow) : Bool :=
  r.name == nm && r.project_id == pid

/-- Next serial id for an insert. -/
def freshRid (reg : List AgentRow) : Nat :=
  (reg.map AgentRow.rid).foldr max 0 + 1

/-- One loop iteration of `seed_agents` in `database/seed_core_agents.py`:
select the existing row by `(name, project_id)`; if found, `UPDATE`
description, script_path, language, parameters, tags and default_schedule
by id; otherwise `INSERT` those fields (plus name and project_id).
Neither branch touches `estimated_cost` or any other column. -/
def coreUpsert (pid : Nat) (reg : List AgentRow) (d : AgentDescriptor) : List AgentRow :=
  match reg.find? (rowKey pid d.name) with
  | some row =>
    reg.map (fun r =>
      if r.rid == row.rid then
        { r with
          description := d.description
          script_path := d.script_path
          language := d.language
          parameters := d.parameters
          tags := d.tags
          default_schedule := d.default_schedule }
      else r)
  | none =>
    reg ++ [{ rid := freshRid reg
              project_id := pid
              name := d.name
              description := d.description
              script_path := d.script_path
              language := d.language
              parameters := d.parameters
              tags := d.tags
              default_schedule := d.default_schedule
              estimated_cost := none
              otherCols := [] }]

/-- An agent dict produced by `discover_agents` in
`database/seed_agents.py` (the scanned scripts live outside this
repository, so the list of discovered agents is left abstract). -/
structure DiscoveredAgent where
  name : String
  description : String
  script_path : String
  language : String
  parameters : List (String × PyVal)
  tags : List String
deriving DecidableEq, Repr

/-- One loop iteration of `seed_database` in `database/seed_agents.py`:
`INSERT ... ON CONFLICT (project_id, name) DO UPDATE SET description,
script_path, parameters, tags`.  The conflict branch leaves `language` and
`default_schedule` (and every unlisted column) untouched; the insert
branch writes project_id, name, description, script_path, language,
parameters and tags. -/
def discoveryUpsert (pid : Nat) (reg : List AgentRow) (a : DiscoveredAgent) : List AgentRow :=
  match reg.find? (rowKey pid a.name) with
  | some row =>
    reg.map (fun r =>
      if r.rid == row.rid then
        { r with
          description := a.description
          script_path := a.script_path
          parameters := a.parameters
          tags := a.tags }
      else r)
  | none =>
    reg ++ [{ rid := freshRid reg
              project_id := pid
              name := a.name
              description := a.description
              script_path := a.script_path
              language := a.language
              parameters := a.parameters
              tags := a.tags
              default_schedule := none
              estimated_cost := none
              otherCols := [] }]

/-- The `CORE_AGENTS` list of `database/seed_core_agents.py`, in source
order. -/
def CORE_AGENTS : List AgentDescriptor := [
  { name := "architect-planner"
    description := "Master architect that designs system architecture, creates technical specifications, and plans project structure. Expert in Supabase, Vercel, React, Node.js, Python, and PostgreSQL. Creates comprehensive READMEs, architecture diagrams, and implementation plans."
    script_path := "/Users/andrewandersen/Desktop/mission-control-dashboard/agents/architect_planner.py"
    language := "python"
    parameters := [("--project-type", .vstr "web-app"), ("--complexity", .vstr "medium"),
      ("--model", .vstr "gpt-5.2"), ("--output-format", .vstr "markdown")]
    tags := ["architecture", "planning", "design", "gpt-5.2", "expensive"]
    default_schedule := none
    estimated_cost_cents := 15
    capabilities := ["system-architecture", "database-design", "api-design",
      "tech-stack-selection", "readme-creation", "documentation"] },
  { name := "code-executioner"
    description := "Heavy-duty coding agent that writes, debugs, and tests production-ready code. Handles full-stack development including frontend (React, Vite), backend (Node.js, Express, Python), and database operations. Includes automated testing and debugging capabilities."
    script_path := "/Users/andrewandersen/Desktop/mission-control-dashboard/agents/code_executioner.py"
    language := "python"
    parameters := [("--language", .vstr "auto"), ("--include-tests", .vbool true),
      ("--model", .vstr "gpt-5-mini"), ("--max-files", .vint 10)]
    tags := ["coding", "development", "testing", "debugging", "gpt-5-mini", "moderate-cost"]
    default_schedule := none
    estimated_cost_cents := 8
    capabilities := ["code-generation", "bug-fixing", "test-writing",
      "code-refactoring", "performance-optimization", "error-handling"] },
  { name := "ui-ux-designer"
    description := "UI/UX specialist focused on creating accessible, on-brand, and visually appealing interfaces. Handles CSS, Tailwind, component design, color schemes, typography, and responsive design. Ensures WCAG accessibility compliance and brand consistency."
    script_path := "/Users/andrewandersen/Desktop/mission-control-dashboard/agents/ui_ux_designer.py"
    language := "python"
    parameters := [("--brand", .vstr "SchooLinks"), ("--framework", .vstr "tailwind"),
      ("--model", .vstr "gpt-5-mini"), ("--accessibility", .vstr "wcag-aa")]
    tags := ["ui", "ux", "design", "css", "accessibility", "gpt-5-mini", "moderate-cost"]
    default_schedule := none
    estimated_cost_cents := 6
    capabilities := ["ui-design", "css-styling", "component-creation",
      "accessibility-audit", "responsive-design", "brand-compliance"] },
  { name := "pdf-ocr-parser"
    description := "Advanced document processing agent that extracts text from PDFs, performs OCR on images, and uses AI reasoning to understand and structure parsed content. Handles complex layouts, tables, forms, handwritten text, and multilingual documents. Provides intelligent content analysis, entity extraction, and structured data transformation."
    script_path := "/Users/andrewandersen/Desktop/mission-control-dashboard/agents/pdf_ocr_parser.py"
    language := "python"
    parameters := [("--ocr-engine", .vstr "tesseract"), ("--ai-reasoning", .vbool true),
      ("--extract-tables", .vbool true), ("--model", .vstr "gpt-5-mini"),
      ("--output-format", .vstr "structured-json")]
    tags := ["pdf", "ocr", "document-processing", "ai-reasoning", "data-extraction",
      "gpt-5-mini", "moderate-cost"]
    default_schedule := none
    estimated_cost_cents := 8
    capabilities := ["pdf-text-extraction", "ocr-image-processing",
      "handwritten-text-recognition", "table-extraction", "form-data-extraction",
      "ai-content-analysis", "entity-recognition", "document-classification",
      "multilingual-support", "structured-output", "content-summarization",
      "metadata-extraction"] },
  { name := "research-scientist"
    description := "R&D agent that performs parallel research, evaluates technologies, analyzes best practices, and provides data-driven recommendations. Reviews architectural decisions, code quality, and suggests improvements based on industry standards."
    script_path := "/Users/andrewandersen/Desktop/mission-control-dashboard/agents/research_scientist.py"
    language := "python"
    parameters := [("--depth", .vstr "comprehensive"), ("--model", .vstr "gpt-5.2"),
      ("--include-comparisons", .vbool true), ("--sources", .vint 5)]
    tags := ["research", "analysis", "r&d", "gpt-5.2", "expensive"]
    default_schedule := none
    estimated_cost_cents := 12
    capabilities := ["technology-research", "code-review", "best-practices-analysis",
      "competitive-analysis", "documentation-review", "performance-benchmarking"] },
  { name := "google-api-specialist"
    description := "Expert in Google APIs including Google Drive, Google Sheets, Google Calendar, Google Analytics, and Google Cloud Platform services. Handles OAuth, service accounts, and complex API integrations."
    script_path := "/Users/andrewandersen/Desktop/mission-control-dashboard/agents/google_api_specialist.py"
    language := "python"
    parameters := [("--api-type", .vstr "drive"), ("--auth-method", .vstr "service-account"),
      ("--model", .vstr "gpt-4o-mini")]
    tags := ["api", "google", "integration", "gpt-4o-mini", "cheap"]
    default_schedule := none
    estimated_cost_cents := 2
    capabilities := ["google-drive-integration", "google-sheets-integration",
      "oauth-setup", "service-account-config", "batch-operations", "file-sync"] },
  { name := "meta-api-specialist"
    description := "Expert in Facebook/Meta APIs including Facebook Graph API, Instagram API, Meta Business Suite, and Ad Manager. Handles campaign management, audience targeting, and analytics."
    script_path := "/Users/andrewandersen/Desktop/mission-control-dashboard/agents/meta_api_specialist.py"
    language := "python"
    parameters := [("--platform", .vstr "facebook"), ("--api-version", .vstr "v18.0"),
      ("--model", .vstr "gpt-4o-mini")]
    tags := ["api", "meta", "facebook", "advertising", "gpt-4o-mini", "cheap"]
    default_schedule := none
    estimated_cost_cents := 2
    capabilities := ["facebook-ads-management", "instagram-integration",
      "audience-targeting", "campaign-analytics", "meta-pixel-setup",
      "catalog-management"] },
  { name := "groundtruth-api-specialist"
    description := "Expert in Ground Truth API for educational data, student information systems, and academic analytics. Handles data synchronization, reporting, and compliance requirements."
    script_path := "/Users/andrewandersen/Desktop/mission-control-dashboard/agents/groundtruth_api_specialist.py"
    language := "python"
    parameters := [("--data-type", .vstr "student-info"), ("--sync-mode", .vstr "incremental"),
      ("--model", .vstr "gpt-4o-mini")]
    tags := ["api", "groundtruth", "education", "data-sync", "gpt-4o-mini", "cheap"]
    default_schedule := none
    estimated_cost_cents := 2
    capabilities := ["student-data-sync", "academic-reporting", "compliance-validation",
      "data-transformation", "webhook-handling", "batch-processing"] },
  { name := "hubspot-api-specialist"
    description := "Expert in HubSpot APIs for CRM, marketing automation, content management, and analytics. Handles contact/company management, email campaigns, landing pages, blog posts, forms, workflows, and HubSpot-hosted content extraction (PDFs, web pages). Integrates with HubSpot CMS for content enrichment."
    script_path := "/Users/andrewandersen/Desktop/mission-control-dashboard/agents/hubspot_api_specialist.py"
    language := "python"
    parameters := [("--api-type", .vstr "crm"), ("--auth-method", .vstr "private-app"),
      ("--model", .vstr "gpt-4o-mini")]
    tags := ["api", "hubspot", "crm", "marketing", "content-extraction", "gpt-4o-mini", "cheap"]
    default_schedule := none
    estimated_cost_cents := 2
    capabilities := ["crm-contact-management", "company-management",
      "deal-pipeline-automation", "email-campaign-management",
      "landing-page-integration", "blog-post-management", "form-submission-handling",
      "workflow-automation", "hubspot-pdf-extraction", "content-enrichment",
      "analytics-reporting"] },
  { name := "webflow-api-specialist"
    description := "Expert in Webflow CMS API, Designer API, and Data API. Handles CMS collections and items, site management, page publishing, asset management, form submissions, e-commerce operations, and webhook integrations. Specializes in content sync, landing page imports, and real-time CMS updates used in marketing content portals."
    script_path := "/Users/andrewandersen/Desktop/mission-control-dashboard/agents/webflow_api_specialist.py"
    language := "python"
    parameters := [("--api-type", .vstr "cms"), ("--auth-method", .vstr "api-token"),
      ("--model", .vstr "gpt-4o-mini")]
    tags := ["api", "webflow", "cms", "website", "design", "content-sync",
      "gpt-4o-mini", "cheap"]
    default_schedule := none
    estimated_cost_cents := 2
    capabilities := ["cms-collection-management", "cms-item-crud", "site-publishing",
      "page-management", "asset-upload-download", "form-submission-handling",
      "webhook-setup", "content-import-export", "landing-page-sync",
      "blog-post-management", "resource-library-sync", "ecommerce-integration",
      "custom-code-injection", "domain-management"] },
  { name := "database-architect"
    description := "Database specialist for Supabase/PostgreSQL. Designs schemas, writes migrations, optimizes queries, sets up RLS policies, and ensures data integrity. Expert in indexing, performance tuning, and scaling."
    script_path := "/Users/andrewandersen/Desktop/mission-control-dashboard/agents/database_architect.py"
    language := "python"
    parameters := [("--database", .vstr "postgresql"), ("--provider", .vstr "supabase"),
      ("--model", .vstr "gpt-5-mini")]
    tags := ["database", "postgresql", "supabase", "gpt-5-mini", "moderate-cost"]
    default_schedule := none
    estimated_cost_cents := 5
    capabilities := ["schema-design", "migration-creation", "query-optimization",
      "rls-policies", "indexing", "backup-strategy"] },
  { name := "deployment-engineer"
    description := "DevOps specialist for Vercel, GitHub Actions, and CI/CD pipelines. Handles deployments, environment configuration, secrets management, and monitoring setup."
    script_path := "/Users/andrewandersen/Desktop/mission-control-dashboard/agents/deployment_engineer.py"
    language := "python"
    parameters := [("--platform", .vstr "vercel"), ("--ci-provider", .vstr "github-actions"),
      ("--model", .vstr "gpt-4o-mini")]
    tags := ["devops", "deployment", "ci-cd", "vercel", "gpt-4o-mini", "cheap"]
    default_schedule := none
    estimated_cost_cents := 2
    capabilities := ["vercel-deployment", "github-actions", "environment-config",
      "secrets-management", "domain-setup", "monitoring"] },
  { name := "qa-tester"
    description := "Quality assurance specialist that writes comprehensive tests, performs manual testing, and ensures code quality. Handles unit tests, integration tests, E2E tests, and accessibility testing."
    script_path := "/Users/andrewandersen/Desktop/mission-control-dashboard/agents/qa_tester.py"
    language := "python"
    parameters := [("--test-type", .vstr "all"), ("--coverage-threshold", .vint 80),
      ("--model", .vstr "gpt-4o-mini")]
    tags := ["testing", "qa", "quality", "gpt-4o-mini", "cheap"]
    default_schedule := none
    estimated_cost_cents := 3
    capabilities := ["unit-testing", "integration-testing", "e2e-testing",
      "accessibility-testing", "test-coverage-analysis", "bug-reporting"] },
  { name := "technical-writer"
    description := "Documentation specialist that creates comprehensive technical documentation, API documentation, user guides, and inline code comments. Ensures clarity and completeness."
    script_path := "/Users/andrewandersen/Desktop/mission-control-dashboard/agents/technical_writer.py"
    language := "python"
    parameters := [("--doc-type", .vstr "technical"), ("--format", .vstr "markdown"),
      ("--model", .vstr "gpt-4o-mini")]
    tags := ["documentation", "writing", "gpt-4o-mini", "cheap"]
    default_schedule := none
    estimated_cost_cents := 2
    capabilities := ["api-documentation", "user-guides", "readme-creation",
      "inline-comments", "changelog-generation", "tutorial-creation"] },
  { name := "security-auditor"
    description := "Security specialist that audits code for vulnerabilities, ensures secure authentication, validates data handling, and checks compliance with security best practices."
    script_path := "/Users/andrewandersen/Desktop/mission-control-dashboard/agents/security_auditor.py"
    language := "python"
    parameters := [("--severity-threshold", .vstr "medium"), ("--compliance", .vstr "owasp-top-10"),
      ("--model", .vstr "gpt-5-mini")]
    tags := ["security", "audit", "compliance", "gpt-5-mini", "moderate-cost"]
    default_schedule := none
    estimated_cost_cents := 6
    capabilities := ["vulnerability-scanning", "auth-validation", "data-security-audit",
      "secrets-detection", "compliance-check", "security-recommendations"] },
  { name := "performance-optimizer"
    description := "Performance specialist that analyzes and optimizes frontend performance, backend efficiency, database queries, and API response times. Uses profiling and benchmarking."
    script_path := "/Users/andrewandersen/Desktop/mission-control-dashboard/agents/performance_optimizer.py"
    language := "python"
    parameters := [("--target", .vstr "all"), ("--metric", .vstr "lighthouse"),
      ("--model", .vstr "gpt-5-mini")]
    tags := ["performance", "optimization", "speed", "gpt-5-mini", "moderate-cost"]
    default_schedule := none
    estimated_cost_cents := 5
    capabilities := ["frontend-optimization", "backend-optimization", "query-optimization",
      "caching-strategy", "bundle-size-reduction", "lighthouse-audit"] }]

/-- The whole of `seed_agents` in `database/seed_core_agents.py` as it acts
on the `agents` table: upsert every `CORE_AGENTS` entry in order, under the
id of the `Mission Control` project (the `projects` upsert that produces
that id is outside the agents table and is passed in as `pid`). -/
def seedCoreAgents (pid : Nat) (reg : List AgentRow) : List AgentRow :=
  CORE_AGENTS.foldl (coreUpsert pid) reg

/-- The agent loop of `seed_database` in `database/seed_agents.py` as it
acts on the `agents` table, over an arbitrary list of discovered agents. -/
def seedDiscovered (pid : Nat) (agents : List DiscoveredAgent) (reg : List AgentRow) :
    List AgentRow :=
  agents.foldl (discoveryUpsert pid) reg

/-- The columns the core seed manages (writes on both insert and update). -/
structure CoreManaged where
  description : String
  script_path : String
  language : String
  parameters : List (String × PyVal)
  tags : List String
  default_schedule : Option String
deriving DecidableEq, Repr

/-- The managed columns of a registry row. -/
def rowManaged (r : AgentRow) : CoreManaged :=
  { description := r.description, script_path := r.script_path, language := r.language,
    parameters := r.parameters, tags := r.tags, default_schedule := r.default_schedule }

/-- The managed columns a descriptor prescribes. -/
def descrManaged (d : AgentDescriptor) : CoreManaged :=
  { description := d.description, script_path := d.script_path, language := d.language,
    parameters := d.parameters, tags := d.tags, default_schedule := d.default_schedule }

/-- The columns outside the core seed's managed set: identity plus the
cost column and any further columns. -/
structure CoreFrame where
  rid : Nat
  project_id : Nat
  name : String
  estimated_cost : Option Nat
  otherCols : List (String × String)
deriving DecidableEq, Repr

/-- Projection of a row to the columns the core seed never updates. -/
def coreFrame (r : AgentRow) : CoreFrame :=
  { rid := r.rid, project_id := r.project_id, name := r.name,
    estimated_cost := r.estimated_cost, otherCols := r.otherCols }

/-- The columns outside the discovery seed's `ON CONFLICT` update set
(`description, script_path, parameters, tags` are updated; everything else
is left alone). -/
structure DiscFrame where
  rid : Nat
  project_id : Nat
  name : String
  language : String
  default_schedule : Option String
  estimated_cost : Option Nat
  otherCols : List (String × String)
deriving DecidableEq, Repr

/-- Projection of a row to the columns the discovery seed's conflict
branch never updates. -/
def discFrame (r : AgentRow) : DiscFrame :=
  { rid := r.rid, project_id := r.project_id, name := r.name, language := r.language,
    default_schedule := r.default_schedule, estimated_cost := r.estimated_cost,
    otherCols := r.otherCols }

/-! ### `database/migrate_phase4.py` -/

/-- The environment `run_migration` executes in: the `DATABASE_URL`
variable, whether each fallible step of the `try` block raises
(`psycopg2.connect`, `open('schema_phase4.sql')`/`read`, `cur.execute` of
the schema, and the verification `SELECT COUNT(*)`), and the table count
the verification query returns when it succeeds. -/
structure MigEnv where
  databaseUrl : Option String
  connectRaises : Bool
  readSchemaRaises : Bool
  executeRaises : Bool
  verifyRaises : Bool
  tablesFound : Nat
deriving DecidableEq, Repr

/-- `run_migration` of `database/migrate_phase4.py`: returns `False` when
`DATABASE_URL` is missing; otherwise runs the `try` block — connect, read
the schema file, execute it, verify — and returns `False` from the
`except Exception` handler if any of those raises, `True` otherwise.  The
verification count itself only selects which line is printed (see
`migrationVerifyLine`), never the return value. -/
def run_migration (e : MigEnv) : Bool :=
  match e.databaseUrl with
  | none => false
  | some _ =>
    if e.connectRaises then false
    else if e.readSchemaRaises then false
    else if e.executeRaises then false
    else if e.verifyRaises then false
    else true

/-- The verification line `run_migration` prints when the `try` block runs
to completion: success banner on a count of 3, warning otherwise. -/
def migrationVerifyLine (e : MigEnv) : Option String :=
  match e.databaseUrl with
  | none => none
  | some _ =>
    if e.connectRaises ∨ e.readSchemaRaises ∨ e.executeRaises ∨ e.verifyRaises then none
    else if e.tablesFound == 3 then
      some ("\n  ✓ Migration successful! (" ++ toString e.tablesFound ++ "/3 tables confirmed)")
    else
      some ("\n  ⚠ Warning: Only " ++ toString e.tablesFound ++ "/3 tables found")

/-! ### `extract_agent_metadata` of `database/seed_agents.py` -/

/-- The single-quote character, used by the regexes in
`extract_agent_metadata`. -/
def sq : Char := Char.ofNat 39

/-- Python slice `s[:n]` (by code point). -/
def pyTake (n : Nat) (s : String) : String :=
  String.mk (s.toList.take n)

/-- Try `f` at every suffix of `l`, leftmost first — the scan loop of
`re.search` for patterns that begin with a literal. -/
def scanFirst {α : Type} (f : List Char → Option α) : List Char → Option α
  | [] => f []
  | c :: t =>
    match f (c :: t) with
    | some r => some r
    | none => scanFirst f t

/-- `re.search(r'"""(.*?)"""', content, re.DOTALL)`: the text between the
first `"""` and the next one, when both exist. -/
def firstDocstring (content : String) : Option String :=
  match content.splitOn "\"\"\"" with
  | _ :: d :: _ :: _ => some d
  | _ => none

/-- The description before truncation: first line of the stripped
docstring, or `''` when the script has no docstring. -/
def descriptionOf (content : String) : String :=
  match firstDocstring content with
  | none => ""
  | some d => ((d.trim).splitOn "\n").headD ""

/-- Match `default=(\d+)` on the current line (the pattern's `.*?` has no
`re.DOTALL`, so it cannot cross a newline); on a hit, the greedy `\d+`
capture as a number. -/
def sameLineDefault : List Char → Option Nat
  | [] => none
  | c :: t =>
    if startsL (c :: t) ("default=".toList) then
      let ds := ((c :: t).drop 8).takeWhile Char.isDigit
      if ds = [] then sameLineDefault t
      else (String.mk ds).toNat?
    else if c = '\n' then none
    else sameLineDefault t

/-- `re.search(r"'--limit'.*?default=(\d+)", content)` as an `int`. -/
def findLimitDefault (content : String) : Option Nat :=
  scanFirst (fun l =>
    if startsL l ([sq] ++ "--limit".toList ++ [sq]) then
      sameLineDefault (l.drop 9)
    else none) content.toList

/-- `re.search(r"AI_MODEL\s*=\s*['\"]([^'\"]+)", content)`: the quoted
model name after an `AI_MODEL =` assignment. -/
def findModelValue (content : String) : Option String :=
  scanFirst (fun l =>
    if startsL l ("AI_MODEL".toList) then
      match (l.drop 8).dropWhile Char.isWhitespace with
      | '=' :: r2 =>
        match r2.dropWhile Char.isWhitespace with
        | q :: r4 =>
          if q = sq ∨ q = '"' then
            let cap := r4.takeWhile (fun c => c ≠ sq ∧ c ≠ '"')
            if cap = [] then none else some (String.mk cap)
          else none
        | [] => none
      | _ => none
    else none) content.toList

/-- The lazy capture of `(.*?)(?:\n\n|Usage:)`: everything up to the first
blank line or `Usage:`. -/
def captureUntilEnd : List Char → Option (List Char)
  | [] => none
  | c :: t =>
    if startsL (c :: t) ['\n', '\n'] ∨ startsL (c :: t) ("Usage:".toList) then
      some []
    else
      (captureUntilEnd t).map (fun r => c :: r)

/-- Position just after the last `'\n'` of the leading whitespace run —
how the greedy `\s*` followed by a literal `\n` resolves. -/
def afterLastNl (l : List Char) : Option (List Char) :=
  let ws := l.takeWhile Char.isWhitespace
  if ws.contains '\n' then
    some (l.drop ((ws.length - (ws.reverse.takeWhile (fun c => c ≠ '\n')).length)))
  else none

/-- `re.search(r'Steps?:\s*\n(.*?)(?:\n\n|Usage:)', docstring, re.DOTALL)`:
the captured steps block. -/
def findStepsBlock (doc : String) : Option (List Char) :=
  scanFirst (fun l =>
    let afterHdr : Option (List Char) :=
      if startsL l ("Steps:".toList) then some (l.drop 6)
      else if startsL l ("Step:".toList) then some (l.drop 5)
      else none
    match afterHdr with
    | none => none
    | some r =>
      match afterLastNl r with
      | none => none
      | some body => captureUntilEnd body) doc.toList

/-- One line of the steps block matching `^\s*\d+\.`. -/
def lineIsStep (l : List Char) : Bool :=
  let r := l.dropWhile Char.isWhitespace
  let ds := r.takeWhile Char.isDigit
  ds ≠ [] && (r.drop ds.length).headD ' ' = '.'

/-- `len(re.findall(r'^\s*\d+\.', steps_text, re.MULTILINE))`. -/
def countSteps (doc : String) : Nat :=
  match findStepsBlock doc with
  | none => 0
  | some block => (((String.mk block).splitOn "\n").countP (fun s => lineIsStep s.toList))

/-- `Path(script_path).stem`: the final path component without its last
suffix (a leading or trailing dot does not begin a suffix). -/
def pathStem (p : String) : String :=
  let l := p.toList
  let nm := match lastIdx l '/' with
    | none => l
    | some s => l.drop (s + 1)
  match lastIdx nm '.' with
  | none => String.mk nm
  | some i =>
    if 0 < i ∧ i + 1 < nm.length then String.mk (nm.take i) else String.mk nm

/-- The `tags` appended after the initial `'python'` entry, in source
order: the six name/description keyword tags, then `'ai-powered'` exactly
when the script text mentions `gpt-5.2` or `gpt-5-mini`. -/
def tagOpts (script_path content descFull : String) : List String :=
  let nm := pathStem script_path
  let dl := pyLower descFull
  (if strHas nm "enrich" || strHas dl "enrich" then ["enrichment"] else []) ++
  (if strHas nm "import" || strHas dl "import" then ["import"] else []) ++
  (if strHas nm "diagnose" || strHas dl "debug" then ["debugging"] else []) ++
  (if strHas nm "health" || strHas dl "monitor" then ["monitoring"] else []) ++
  (if strHas nm "deploy" || strHas dl "preflight" then ["deployment"] else []) ++
  (if strHas nm "maintenance" || strHas dl "orchestrat" then ["orchestration"] else []) ++
  (if strHas content "gpt-5.2" || strHas content "gpt-5-mini" then ["ai-powered"] else [])

/-- The dict `extract_agent_metadata` returns. -/
structure AgentMeta where
  description : String
  parameters : List (String × PyVal)
  steps_count : Nat
  tags : List String
deriving DecidableEq, Repr

/-- `extract_agent_metadata(script_path)` of `database/seed_agents.py`,
with the file's text passed explicitly (the Python reads it from disk):
docstring-derived description truncated to 500 characters, the `--limit`
and `--model` parameters recovered by regex, the numbered-steps count, and
the keyword tags grown from `['python']`. -/
def extract_agent_metadata (script_path content : String) : AgentMeta :=
  let descFull := descriptionOf content
  { description := pyTake 500 descFull
    parameters :=
      (if strHas content "--limit" then
        match findLimitDefault content with
        | some n => [("--limit", PyVal.vint (n : Int))]
        | none => []
      else []) ++
      (if strHas content "--model" then
        match findModelValue content with
        | some m => [("--model", PyVal.vstr m)]
        | none => []
      else [])
    steps_count :=
      match firstDocstring content with
      | none => 0
      | some d => countSteps d
    tags := "python" :: tagOpts script_path content descFull }

/-! ### The workflow engine, modelled from the specification

No engine code exists in the source tree — the repository ships only the
Phase-4 migration that creates the orchestration tables (and spec §9 flags
the workflow semantics as reconstructed).  The state machine below is
therefore modelled from spec §4.1/§4.2/§8 rather than translated from
source. -/

/-- Modelled from the spec: workflow lifecycle states of §4.1; no engine
code exists under `src/`. -/
inductive WfStatus
  | created
  | running
  | awaitingApproval
  | completed
  | failed
  | cancelled
deriving DecidableEq, Repr

/-- Modelled from the spec: Approval resolution states of §3. -/
inductive ApStatus
  | pending
  | approved
  | rejected
  | expired
deriving DecidableEq, Repr

/-- Modelled from the spec: terminal failure reason codes of §4.1. -/
inductive FailReason
  | approvalRejected
  | approvalExpired
  | executionExhausted
deriving DecidableEq, Repr

/-- Modelled from the spec: one Step of §3 — the Agent to invoke and
whether the step is gated behind an Approval. -/
structure StepSpec where
  agentName : String
  requiresApproval : Bool
deriving DecidableEq, Repr

/-- Modelled from the spec: one Workflow with the engine state §4.1 keeps
for it.  `steps` carries the assigned `step_order` against each step;
`started` counts the steps whose execution has begun; `inFlight` is the
index of the single step currently executing, if any; `invoked` is the
invocation log, in order; `approvals` records each gate's resolution. -/
structure Workflow where
  base : Nat
  steps : List (Nat × StepSpec)
  status : WfStatus
  started : Nat
  inFlight : Option Nat
  invoked : List Nat
  approvals : Nat → Option ApStatus
  reason : Option FailReason

/-- Modelled from the spec: workflow creation — decompose into ordered
steps, assigning contiguous `step_order` values from the configured base
index (§3). -/
def mkWorkflow (base : Nat) (specs : List StepSpec) : Workflow :=
  { base := base
    steps := (List.range' base specs.length).zip specs
    status := .created
    started := 0
    inFlight := none
    invoked := []
    approvals := fun _ => none
    reason := none }

/-- Whether step index `i` is gated. -/
def stepGated (w : Workflow) (i : Nat) : Bool :=
  ((w.steps.get? i).map (fun p => p.2.requiresApproval)).getD false

/-- The Approval resolution recorded for step index `i`, if any. -/
def lookupAp (w : Workflow) (i : Nat) : Option ApStatus :=
  w.approvals i

/-- Resolve the Approval for step index `i`. -/
def setAp (w : Workflow) (i : Nat) (st : ApStatus) : Workflow :=
  { w with approvals := fun j => if j = i then some st else w.approvals j }

/-- Modelled from the spec: invoke the next step's agent — the workflow
runs, the step joins the invocation log, and its execution is in flight. -/
def beginNext (w : Workflow) : Workflow :=
  { w with status := .running
           inFlight := some w.started
           invoked := w.invoked ++ [w.started]
           started := w.started + 1 }

/-- Modelled from the spec: block on the next step's gate —
`requestApproval` is idempotent per (workflow, step), so an existing
Approval is kept and only a missing one is created `pending` (§4.2). -/
def requestGate (w : Workflow) : Workflow :=
  { w with status := .awaitingApproval
           approvals := fun j =>
             if j = w.started then some ((w.approvals w.started).getD .pending)
             else w.approvals j }

/-- Is the next step to start gated? -/
def nextGated (w : Workflow) : Bool := stepGated w w.started

/-- Modelled from the spec: the Workflow Engine's transition relation
(§4.1 operations `start`/`advance`/`resume`/`fail`/`cancel`, driven by the
Approval Gate Manager's `resolve`/`expire` callbacks of §4.2).  One
transition per engine reaction; a step's execution begins only through
`beginNext`, and only ever for the step after the last one begun. -/
inductive WfStep : Workflow → Workflow → Prop
  | start_begin (w : Workflow) :
      w.status = .created → w.started < w.steps.length → nextGated w = false →
      WfStep w (beginNext w)
  | start_gate (w : Workflow) :
      w.status = .created → w.started < w.steps.length → nextGated w = true →
      WfStep w (requestGate w)
  | start_complete (w : Workflow) :
      w.status = .created → w.started = w.steps.length →
      WfStep w { w with status := .completed }
  | exec_done (w : Workflow) (i : Nat) :
      w.status = .running → w.inFlight = some i →
      WfStep w { w with inFlight := none }
  | advance_begin (w : Workflow) :
      w.status = .running → w.inFlight = none →
      w.started < w.steps.length → nextGated w = false →
      WfStep w (beginNext w)
  | advance_gate (w : Workflow) :
      w.status = .running → w.inFlight = none →
      w.started < w.steps.length → nextGated w = true →
      WfStep w (requestGate w)
  | advance_complete (w : Workflow) :
      w.status = .running → w.inFlight = none → w.started = w.steps.length →
      WfStep w { w with status := .completed }
  | approve_resume (w : Workflow) :
      w.status = .awaitingApproval → lookupAp w w.started = some .pending →
      WfStep w (beginNext (setAp w w.started .approved))
  | reject_fail (w : Workflow) :
      w.status = .awaitingApproval → lookupAp w w.started = some .pending →
      WfStep w { (setAp w w.started .rejected) with
                   status := .failed, reason := some .approvalRejected }
  | expire_fail (w : Workflow) :
      w.status = .awaitingApproval → lookupAp w w.started = some .pending →
      WfStep w { (setAp w w.started .expired) with
                   status := .failed, reason := some .approvalExpired }
  | exec_fail (w : Workflow) (i : Nat) :
      w.status = .running → w.inFlight = some i →
      WfStep w { w with inFlight := none, status := .failed,
                        reason := some .executionExhausted }
  | cancel (w : Workflow) :
      w.status ≠ .completed → w.status ≠ .failed → w.status ≠ .cancelled →
      WfStep w { w with inFlight := none, status := .cancelled }

/-- States reachable from a given initial workflow. -/
inductive WfReach (w0 : Workflow) : Workflow → Prop
  | refl : WfReach w0 w0
  | step {w w' : Workflow} : WfReach w0 w → WfStep w w' → WfReach w0 w'

/-- The inductive invariant of the engine: steps and their orders are the
ones assigned at creation; the invocation log is exactly the first
`started` step indexes in order; gated steps appear in the log only with
an `approved` Approval; a negative resolution means a failed workflow
whose gated step was never invoked; and idle states hold no in-flight
execution. -/
def EngineInv (base : Nat) (specs : List StepSpec) (s : Workflow) : Prop :=
  s.steps = (List.range' base specs.length).zip specs ∧
  s.invoked = List.range s.started ∧
  s.started ≤ s.steps.length ∧
  (∀ i, stepGated s i = true → i ∈ s.invoked → lookupAp s i = some .approved) ∧
  (∀ i, (lookupAp s i = some .rejected ∨ lookupAp s i = some .expired) →
      s.status = .failed ∧ i ∉ s.invoked) ∧
  (s.status = .created → s.inFlight = none) ∧
  (s.status = .awaitingApproval → s.inFlight = none) ∧
  (s.status = .awaitingApproval → s.started < s.steps.length)

/-! ## Theorems -/

/-- Claim C1, counterexample: it is not the case that re-seeding leaves
the registry row carrying the descriptor's cost estimate — `seed_agents`
in `seed_core_agents.py` never writes a cost column, so after seeding
twice the `architect-planner` row stores no cost at all, not the
descriptor's `0.15`. -/
theorem seed_core_cost_not_carried :
    ¬ (∀ d ∈ CORE_AGENTS,
      ((seedCoreAgents 1 (seedCoreAgents 1 [])).filter (fun r => rowKey 1 d.name r)).map
        (fun r => r.estimated_cost) = [some d.estimated_cost_cents]) := by
  decide

/-- Claim C1 (amended): seeding the core-agent catalog twice leaves
exactly one registry row per agent name, and that row carries the
descriptor's latest values for the managed fields — description,
script_path, language, parameters, tags and default_schedule; the cost
estimate is not among the columns the seed writes. -/
theorem seed_core_upsert_idempotent_managed :
    ∀ d ∈ CORE_AGENTS,
      ((seedCoreAgents 1 (seedCoreAgents 1 [])).filter (fun r => rowKey 1 d.name r)).map
        rowManaged = [descrManaged d] := by
  decide

/-- Claim C1 witness: the amended statement at the first catalog entry,
`architect-planner`. -/
theorem seed_core_upsert_idempotent_managed_witness :
    ((seedCoreAgents 1 (seedCoreAgents 1 [])).filter
        (fun r => rowKey 1 (CORE_AGENTS.get ⟨0, by decide⟩).name r)).map rowManaged
      = [descrManaged (CORE_AGENTS.get ⟨0, by decide⟩)] :=
  seed_core_upsert_idempotent_managed (CORE_AGENTS.get ⟨0, by decide⟩)
    (List.get_mem _ _ _)

/-- Whether an agent script's argparse table accepts a flag spelling. -/
def acceptsFlag (specs : List ArgSpec) (flag : String) : Bool :=
  (findSpec specs flag).isSome

/-- The option table of the fleet script registered under a name. -/
def specsOf (nm : String) : List ArgSpec :=
  ((fleet.find? (fun p => p.name == nm)).map (fun p => p.specs)).getD []

/-- Claim C2, counterexample: not every flag of a registered parameter
template is accepted by the script's parser — e.g. `architect-planner`
registers `--project-type` but `architect_planner.py` accepts no such
option. -/
theorem registered_flags_not_all_accepted :
    ¬ (∀ d ∈ CORE_AGENTS, ∀ fl ∈ d.parameters.map Prod.fst,
        acceptsFlag (specsOf d.name) fl = true) := by
  decide

/-- Claim C2 (amended): every agent's parser accepts the registered
`--model` flag, and the registered template is accepted in full exactly
for `pdf-ocr-parser` and `hubspot-api-specialist` — for each of the other
fourteen agents some registered flag is rejected; in particular the
example flags the claim names — `--project-type`, `--complexity`,
`--output-format` for architect-planner and `--max-files` for
code-executioner — are rejected by the corresponding parsers, so the
orchestrator cannot serialize those template entries into accepted
flags. -/
theorem registered_flag_acceptance :
    (∀ d ∈ CORE_AGENTS, acceptsFlag (specsOf d.name) "--model" = true) ∧
    (∀ d ∈ CORE_AGENTS,
      ((∀ fl ∈ d.parameters.map Prod.fst, acceptsFlag (specsOf d.name) fl = true) ↔
        (d.name = "pdf-ocr-parser" ∨ d.name = "hubspot-api-specialist"))) ∧
    acceptsFlag (specsOf "architect-planner") "--project-type" = false ∧
    acceptsFlag (specsOf "architect-planner") "--complexity" = false ∧
    acceptsFlag (specsOf "architect-planner") "--output-format" = false ∧
    acceptsFlag (specsOf "code-executioner") "--max-files" = false := by
  refine ⟨by decide, by decide, by decide, by decide, by decide, by decide⟩

/-- Claim C2 witness: `--model` acceptance at the first catalog entry. -/
theorem registered_flag_acceptance_witness :
    acceptsFlag (specsOf (CORE_AGENTS.get ⟨0, by decide⟩).name) "--model" = true :=
  registered_flag_acceptance.1 (CORE_AGENTS.get ⟨0, by decide⟩) (List.get_mem _ _ _)

/-- Claim C4: each of the sixteen agent scripts parses an invocation that
supplies only `--dry-run` and `-v`. -/
theorem fleet_accepts_dry_run_and_verbose :
    fleet.length = 16 ∧
    ∀ p ∈ fleet, (parseArgs p.specs ["--dry-run", "-v"]).isOk = true := by
  exact ⟨by decide, by decide⟩

/-- Claim C4 witness: the first fleet script at the concrete invocation. -/
theorem fleet_accepts_dry_run_and_verbose_witness :
    (parseArgs (fleet.get ⟨0, by decide⟩).specs ["--dry-run", "-v"]).isOk = true :=
  fleet_accepts_dry_run_and_verbose.2 (fleet.get ⟨0, by decide⟩) (List.get_mem _ _ _)

/-- Claim C8, counterexample: `run_migration` also returns `False` when
`DATABASE_URL` is set and executing the schema SQL would not raise —
e.g. when `psycopg2.connect` raises — so "False exactly when DATABASE_URL
is unset or executing the schema SQL raises" does not hold. -/
theorem run_migration_false_despite_execute_ok :
    ¬ (∀ e : MigEnv, run_migration e = false ↔
        (e.databaseUrl = none ∨ e.executeRaises = true)) := by
  intro h
  have h2 := (h { databaseUrl := some "postgresql://localhost/mission_control",
                    connectRaises := true, readSchemaRaises := false,
                    executeRaises := false, verifyRaises := false,
                    tablesFound := 3 }).mp rfl
  simp at h2

/-- Claim C8 (amended): `run_migration` returns `False` exactly when
`DATABASE_URL` is unset or some step of its `try` block raises —
connecting, reading `schema_phase4.sql`, executing the schema SQL, or the
verification query; in every other case it returns `True`, and a
verification count below 3 only changes the printed line to a warning. -/
theorem run_migration_false_iff_guard_or_raise :
    (∀ e : MigEnv, run_migration e = false ↔
      (e.databaseUrl = none ∨ e.connectRaises = true ∨ e.readSchemaRaises = true ∨
        e.executeRaises = true ∨ e.verifyRaises = true)) ∧
    (∀ e : MigEnv, run_migration e = true → e.tablesFound ≠ 3 →
      migrationVerifyLine e
        = some ("\n  ⚠ Warning: Only " ++ toString e.tablesFound ++ "/3 tables found")) := by
  constructor
  · rintro ⟨url, c, r, x, v, t⟩
    cases url <;> cases c <;> cases r <;> cases x <;> cases v <;>
      simp [run_migration]
  · rintro ⟨url, c, r, x, v, t⟩ htrue hne
    cases url <;> cases c <;> cases r <;> cases x <;> cases v <;>
      simp_all [run_migration, migrationVerifyLine]

/-- Claim C8 witness: a successful migration that finds only 2 of the 3
tables returns `True` and prints the warning line. -/
theorem run_migration_false_iff_guard_or_raise_witness :
    migrationVerifyLine { databaseUrl := some "postgresql://localhost/mission_control",
                          connectRaises := false, readSchemaRaises := false,
                          executeRaises := false, verifyRaises := false, tablesFound := 2 }
      = some ("\n  ⚠ Warning: Only " ++ toString 2 ++ "/3 tables found") :=
  run_migration_false_iff_guard_or_raise.2
    { databaseUrl := some "postgresql://localhost/mission_control",
        connectRaises := false, readSchemaRaises := false, executeRaises := false,
        verifyRaises := false, tablesFound := 2 } rfl (by decide)

/-- Python's `s[:n]` never yields more than `n` characters. -/
theorem pyTake_length_le (n : Nat) (s : String) : (pyTake n s).length ≤ n := by
  show (s.toList.take n).length ≤ n
  exact List.length_take_le n s.toList

/-- Membership in a one-element conditional list. -/
theorem mem_ite_singleton {α : Type} (a s : α) (b : Bool) :
    a ∈ (if b then [s] else []) ↔ b = true ∧ a = s := by
  cases b <;> simp

/-- The `ai-powered` tag appears exactly under the model-name condition:
none of the other keyword tags collide with it. -/
theorem mem_ai_tagOpts (sp c d : String) :
    "ai-powered" ∈ tagOpts sp c d ↔
      (strHas c "gpt-5.2" = true ∨ strHas c "gpt-5-mini" = true) := by
  simp [tagOpts, List.mem_append, mem_ite_singleton]

/-- Claim C10: for any script path and file text,
`extract_agent_metadata` yields a description of at most 500 characters
and a tags list headed by `python`, and appends `ai-powered` exactly when
the text mentions `gpt-5.2` or `gpt-5-mini`. -/
theorem extract_metadata_shape (script_path content : String) :
    (extract_agent_metadata script_path content).description.length ≤ 500 ∧
    (extract_agent_metadata script_path content).tags.head? = some "python" ∧
    ("ai-powered" ∈ (extract_agent_metadata script_path content).tags ↔
      (strHas content "gpt-5.2" = true ∨ strHas content "gpt-5-mini" = true)) := by
  refine ⟨pyTake_length_le 500 _, rfl, ?_⟩
  have htags : (extract_agent_metadata script_path content).tags
      = "python" :: tagOpts script_path content (descriptionOf content) := rfl
  rw [htags, List.mem_cons, mem_ai_tagOpts]
  simp

/-- Rows with equal unmanaged core columns agree on the upsert key. -/
theorem rowKey_eq_of_coreFrame_eq {r r' : AgentRow} (h : coreFrame r' = coreFrame r)
    (pid : Nat) (nm : String) : rowKey pid nm r' = rowKey pid nm r := by
  have h1 : r'.name = r.name := congrArg CoreFrame.name h
  have h2 : r'.project_id = r.project_id := congrArg CoreFrame.project_id h
  simp [rowKey, h1, h2]

/-- Rows with equal unmanaged discovery columns agree on the upsert key. -/
theorem rowKey_eq_of_discFrame_eq {r r' : AgentRow} (h : discFrame r' = discFrame r)
    (pid : Nat) (nm : String) : rowKey pid nm r' = rowKey pid nm r := by
  have h1 : r'.name = r.name := congrArg DiscFrame.name h
  have h2 : r'.project_id = r.project_id := congrArg DiscFrame.project_id h
  simp [rowKey, h1, h2]

/-- When a row for the descriptor's key already exists, the core upsert
takes the `UPDATE` branch and leaves every unmanaged column of every row
unchanged. -/
theorem coreUpsert_frame (pid : Nat) (reg : List AgentRow) (d : AgentDescriptor)
    (h : ∃ r ∈ reg, rowKey pid d.name r = true) :
    (coreUpsert pid reg d).map coreFrame = reg.map coreFrame := by
  have hs : (reg.find? (rowKey pid d.name)).isSome := by
    rw [List.find?_isSome]
    obtain ⟨r, hr, hk⟩ := h
    exact ⟨r, hr, hk⟩
  obtain ⟨row, hrow⟩ := Option.isSome_iff_exists.mp hs
  simp only [coreUpsert, hrow, List.map_map]
  apply List.map_congr_left
  intro r _
  by_cases hb : (r.rid == row.rid) = true <;> simp [Function.comp, hb, coreFrame]

/-- When a row for the discovered agent's key already exists, the
discovery upsert takes the `ON CONFLICT` branch and leaves every column
outside its update set unchanged, for every row. -/
theorem discoveryUpsert_frame (pid : Nat) (reg : List AgentRow) (a : DiscoveredAgent)
    (h : ∃ r ∈ reg, rowKey pid a.name r = true) :
    (discoveryUpsert pid reg a).map discFrame = reg.map discFrame := by
  have hs : (reg.find? (rowKey pid a.name)).isSome := by
    rw [List.find?_isSome]
    obtain ⟨r, hr, hk⟩ := h
    exact ⟨r, hr, hk⟩
  obtain ⟨row, hrow⟩ := Option.isSome_iff_exists.mp hs
  simp only [discoveryUpsert, hrow, List.map_map]
  apply List.map_congr_left
  intro r _
  by_cases hb : (r.rid == row.rid) = true <;> simp [Function.comp, hb, discFrame]

/-- A key hit survives any rewrite that preserves the core frame. -/
theorem exists_key_of_coreFrame_eq {reg1 reg : List AgentRow}
    (hmap : reg1.map coreFrame = reg.map coreFrame) (pid : Nat) (nm : String)
    (h : ∃ r ∈ reg, rowKey pid nm r = true) : ∃ r ∈ reg1, rowKey pid nm r = true := by
  obtain ⟨r, hr, hk⟩ := h
  have : coreFrame r ∈ reg1.map coreFrame := by
    rw [hmap]; exact List.mem_map_of_mem coreFrame hr
  obtain ⟨r', hr', hfr⟩ := List.mem_map.mp this
  exact ⟨r', hr', (rowKey_eq_of_coreFrame_eq hfr pid nm).trans hk⟩

/-- A key hit survives any rewrite that preserves the discovery frame. -/
theorem exists_key_of_discFrame_eq {reg1 reg : List AgentRow}
    (hmap : reg1.map discFrame = reg.map discFrame) (pid : Nat) (nm : String)
    (h : ∃ r ∈ reg, rowKey pid nm r = true) : ∃ r ∈ reg1, rowKey pid nm r = true := by
  obtain ⟨r, hr, hk⟩ := h
  have : discFrame r ∈ reg1.map discFrame := by
    rw [hmap]; exact List.mem_map_of_mem discFrame hr
  obtain ⟨r', hr', hfr⟩ := List.mem_map.mp this
  exact ⟨r', hr', (rowKey_eq_of_discFrame_eq hfr pid nm).trans hk⟩

/-- Folding the core upsert over descriptors whose rows all exist leaves
all unmanaged columns of all rows unchanged. -/
theorem seedCore_fold_frame (pid : Nat) :
    ∀ (ds : List AgentDescriptor) (reg : List AgentRow),
      (∀ d ∈ ds, ∃ r ∈ reg, rowKey pid d.name r = true) →
      (ds.foldl (coreUpsert pid) reg).map coreFrame = reg.map coreFrame := by
  intro ds
  induction ds with
  | nil => intro reg _; rfl
  | cons d ds ih =>
    intro reg h
    have h1 : (coreUpsert pid reg d).map coreFrame = reg.map coreFrame :=
      coreUpsert_frame pid reg d (h d (List.mem_cons_self d ds))
    have h2 : ∀ d2 ∈ ds, ∃ r ∈ coreUpsert pid reg d, rowKey pid d2.name r = true :=
      fun d2 hd2 =>
        exists_key_of_coreFrame_eq h1 pid d2.name (h d2 (List.mem_cons_of_mem d hd2))
    calc (List.foldl (coreUpsert pid) (coreUpsert pid reg d) ds).map coreFrame
        = (coreUpsert pid reg d).map coreFrame := ih (coreUpsert pid reg d) h2
      _ = reg.map coreFrame := h1

/-- Folding the discovery upsert over agents whose rows all exist leaves
all columns outside its update set unchanged. -/
theorem seedDisc_fold_frame (pid : Nat) :
    ∀ (das : List DiscoveredAgent) (reg : List AgentRow),
      (∀ a ∈ das, ∃ r ∈ reg, rowKey pid a.name r = true) →
      (das.foldl (discoveryUpsert pid) reg).map discFrame = reg.map discFrame := by
  intro das
  induction das with
  | nil => intro reg _; rfl
  | cons a das ih =>
    intro reg h
    have h1 : (discoveryUpsert pid reg a).map discFrame = reg.map discFrame :=
      discoveryUpsert_frame pid reg a (h a (List.mem_cons_self a das))
    have h2 : ∀ a2 ∈ das, ∃ r ∈ discoveryUpsert pid reg a, rowKey pid a2.name r = true :=
      fun a2 ha2 =>
        exists_key_of_discFrame_eq h1 pid a2.name (h a2 (List.mem_cons_of_mem a ha2))
    calc (List.foldl (discoveryUpsert pid) (discoveryUpsert pid reg a) das).map discFrame
        = (discoveryUpsert pid reg a).map discFrame := ih (discoveryUpsert pid reg a) h2
      _ = reg.map discFrame := h1

/-- Equal core frames give equal per-key row counts. -/
theorem count_eq_of_coreFrame_eq {reg1 reg : List AgentRow}
    (h : reg1.map coreFrame = reg.map coreFrame) (pid : Nat) (nm : String) :
    (reg1.filter (rowKey pid nm)).length = (reg.filter (rowKey pid nm)).length := by
  rw [← List.countP_eq_length_filter, ← List.countP_eq_length_filter]
  have hc := congrArg (List.countP (fun f => f.name == nm && f.project_id == pid)) h
  simpa [List.countP_map, Function.comp, rowKey] using hc

/-- Equal discovery frames give equal per-key row counts. -/
theorem count_eq_of_discFrame_eq {reg1 reg : List AgentRow}
    (h : reg1.map discFrame = reg.map discFrame) (pid : Nat) (nm : String) :
    (reg1.filter (rowKey pid nm)).length = (reg.filter (rowKey pid nm)).length := by
  rw [← List.countP_eq_length_filter, ← List.countP_eq_length_filter]
  have hc := congrArg (List.countP (fun f => f.name == nm && f.project_id == pid)) h
  simpa [List.countP_map, Function.comp, rowKey] using hc

/-- Claim C3: re-running either seed script against a registry that
already holds its agents creates no second row for any (project, name)
pair and leaves every stored column outside the respective managed update
set unchanged on every row. -/
theorem seed_rerun_no_duplicates_frame_preserved
    (pid : Nat) (reg : List AgentRow) (discovered : List DiscoveredAgent)
    (hcore : ∀ d ∈ CORE_AGENTS, ∃ r ∈ reg, rowKey pid d.name r = true)
    (hdisc : ∀ a ∈ discovered, ∃ r ∈ reg, rowKey pid a.name r = true) :
    ((seedCoreAgents pid reg).map coreFrame = reg.map coreFrame ∧
      ∀ pid2 nm, ((seedCoreAgents pid reg).filter (rowKey pid2 nm)).length
        = (reg.filter (rowKey pid2 nm)).length) ∧
    ((seedDiscovered pid discovered reg).map discFrame = reg.map discFrame ∧
      ∀ pid2 nm, ((seedDiscovered pid discovered reg).filter (rowKey pid2 nm)).length
        = (reg.filter (rowKey pid2 nm)).length) := by
  have h1 := seedCore_fold_frame pid CORE_AGENTS reg hcore
  have h2 := seedDisc_fold_frame pid discovered reg hdisc
  exact ⟨⟨h1, fun pid2 nm => count_eq_of_coreFrame_eq h1 pid2 nm⟩,
         ⟨h2, fun pid2 nm => count_eq_of_discFrame_eq h2 pid2 nm⟩⟩

/-- Claim C3 witness: after one core seeding from an empty registry, a
second core seeding (and an empty discovery run) changes no unmanaged
column. -/
theorem seed_rerun_no_duplicates_frame_preserved_witness :
    (seedCoreAgents 1 (seedCoreAgents 1 [])).map coreFrame
      = (seedCoreAgents 1 []).map coreFrame :=
  (seed_rerun_no_duplicates_frame_preserved 1 (seedCoreAgents 1 []) []
    (by decide) (by decide)).1.1

/-- Unconditionally printed literals appear in every run's output. -/
theorem uncond_mem_exec : ∀ (st : Stmt) (ns : NS) (l : String),
    l ∈ uncondLines st → l ∈ exec ns st := by
  intro st
  induction st with
  | skip => intro ns l h; simp [uncondLines] at h
  | pr e =>
    intro ns l h
    cases e with
    | lit s => simp [uncondLines] at h; simp [exec, evalS, h]
    | var k => simp [uncondLines] at h
    | cat a b => simp [uncondLines] at h
    | low e2 => simp [uncondLines] at h
    | extOf e2 => simp [uncondLines] at h
  | seq a b iha ihb =>
    intro ns l h
    simp only [uncondLines, List.mem_append] at h
    simp only [exec, List.mem_append]
    rcases h with h | h
    · exact Or.inl (iha ns l h)
    · exact Or.inr (ihb ns l h)
  | ite c t e _ _ => intro ns l h; simp [uncondLines] at h

/-- Claim C5: on every argument list an agent's parser accepts, the
script returns exit status 0 and its output contains the placeholder
banner and a capability-listing line; the model of each `main` contains
nothing but prints, so no successfully parsed invocation performs other
work or fails. -/
theorem agents_print_capabilities_exit_zero :
    ∀ p ∈ fleet, ∀ (argv : List String) (ns : NS),
      parseArgs p.specs argv = .ok ns →
      (runAgent p ns).2 = 0 ∧
      "⚠️  Placeholder agent - implementation pending" ∈ (runAgent p ns).1 ∧
      ((runAgent p ns).1.any (fun l => strHas l "Capabilities:")) = true := by
  have hu : ∀ p ∈ fleet,
      "⚠️  Placeholder agent - implementation pending" ∈ uncondLines p.prog ∧
      ((uncondLines p.prog).any (fun l => strHas l "Capabilities:")) = true := by decide
  intro p hp argv ns _
  obtain ⟨h1, h2⟩ := hu p hp
  refine ⟨rfl, uncond_mem_exec _ _ _ h1, ?_⟩
  obtain ⟨l, hl, hP⟩ := List.any_eq_true.mp h2
  exact List.any_eq_true.mpr ⟨l, uncond_mem_exec _ _ _ hl, hP⟩

/-- Claim C5 witness: the first fleet script on the empty argument
list. -/
theorem agents_print_capabilities_exit_zero_witness :
    (runAgent (fleet.get ⟨0, by decide⟩) (initNS architectSpecs)).2 = 0 ∧
    "⚠️  Placeholder agent - implementation pending"
      ∈ (runAgent (fleet.get ⟨0, by decide⟩) (initNS architectSpecs)).1 ∧
    ((runAgent (fleet.get ⟨0, by decide⟩) (initNS architectSpecs)).1.any
      (fun l => strHas l "Capabilities:")) = true :=
  agents_print_capabilities_exit_zero (fleet.get ⟨0, by decide⟩) (List.get_mem _ _ _)
    [] (initNS architectSpecs) rfl


/-! ### Parsing and output lemmas for the dry-run hyperproperty -/

/-- Setting one destination leaves every other destination unchanged. -/
theorem nsGet_nsSet_ne (k k' : String) (v : PyVal) (h : k' ≠ k) :
    ∀ (ns : NS), nsGet (nsSet ns k v) k' = nsGet ns k'
  | [] => rfl
  | p :: t => by
    show nsGet ((if p.1 = k then (k, v) else p) :: nsSet t k v) k' = nsGet (p :: t) k'
    by_cases hp : p.1 = k
    · rw [if_pos hp]
      have h1 : ¬ ((k, v).1 = k') := fun hh => h (by simpa using hh.symm)
      have h2 : ¬ (p.1 = k') := fun hh => h (hp ▸ hh.symm)
      simp only [nsGet, List.find?]
      rw [decide_eq_false h1, decide_eq_false h2]
      exact nsGet_nsSet_ne k k' v h t
    · rw [if_neg hp]
      by_cases hq : p.1 = k'
      · simp only [nsGet, List.find?, decide_eq_true hq]
      · simp only [nsGet, List.find?, decide_eq_false hq]
        exact nsGet_nsSet_ne k k' v h t

/-- The later of two writes to the same destination wins. -/
theorem nsSet_nsSet_same (k : String) (v v' : PyVal) (ns : NS) :
    nsSet (nsSet ns k v) k v' = nsSet ns k v' := by
  simp only [nsSet, List.map_map]
  apply List.map_congr_left
  intro p _
  by_cases hp : p.1 = k <;> simp [Function.comp, hp]

/-- Writes to distinct destinations commute. -/
theorem nsSet_comm (k k' : String) (v v' : PyVal) (h : k ≠ k') (ns : NS) :
    nsSet (nsSet ns k v) k' v' = nsSet (nsSet ns k' v') k v := by
  simp only [nsSet, List.map_map]
  apply List.map_congr_left
  intro p _
  by_cases hp : p.1 = k <;> by_cases hq : p.1 = k'
  · exact absurd (hp.symm.trans hq) h
  · simp [Function.comp, hp, hq, h, Ne.symm h]
  · simp [Function.comp, hp, hq, h, Ne.symm h]
  · simp [Function.comp, hp, hq]

/-- A string expression that does not read a destination is unaffected by
writing it. -/
theorem evalS_nsSet_ne (k : String) (v : PyVal) :
    ∀ (e : SExpr) (ns : NS), k ∉ keysS e → evalS (nsSet ns k v) e = evalS ns e := by
  intro e
  induction e with
  | lit s => intro ns _; rfl
  | var k2 =>
    intro ns h
    simp only [keysS, List.mem_singleton] at h
    simp [evalS, nsGet_nsSet_ne k k2 v (fun hh => h hh.symm) ns]
  | cat a b iha ihb =>
    intro ns h
    simp only [keysS, List.mem_append] at h
    push_neg at h
    simp [evalS, iha ns h.1, ihb ns h.2]
  | low e ih =>
    intro ns h
    simp only [keysS] at h
    simp [evalS, ih ns h]
  | extOf e ih =>
    intro ns h
    simp only [keysS] at h
    simp [evalS, ih ns h]

/-- A condition that does not read a destination is unaffected by writing
it. -/
theorem evalB_nsSet_ne (k : String) (v : PyVal) :
    ∀ (c : BExpr) (ns : NS), k ∉ keysB c → evalB (nsSet ns k v) c = evalB ns c := by
  intro c
  induction c with
  | truthy k2 =>
    intro ns h
    simp only [keysB, List.mem_singleton] at h
    simp [evalB, nsGet_nsSet_ne k k2 v (fun hh => h hh.symm) ns]
  | eqS e s =>
    intro ns h
    simp only [keysB] at h
    simp [evalB, evalS_nsSet_ne k v e ns h]
  | memS e ss =>
    intro ns h
    simp only [keysB] at h
    simp [evalB, evalS_nsSet_ne k v e ns h]
  | hasS pat e =>
    intro ns h
    simp only [keysB] at h
    simp [evalB, evalS_nsSet_ne k v e ns h]
  | band a b iha ihb =>
    intro ns h
    simp only [keysB, List.mem_append] at h
    push_neg at h
    simp [evalB, iha ns h.1, ihb ns h.2]

/-- A program that does not read a destination prints the same lines
whatever is written there. -/
theorem exec_nsSet_ne (k : String) (v : PyVal) :
    ∀ (st : Stmt) (ns : NS), k ∉ keysStmt st → exec (nsSet ns k v) st = exec ns st := by
  intro st
  induction st with
  | skip => intro ns _; rfl
  | pr e =>
    intro ns h
    simp only [keysStmt] at h
    simp [exec, evalS_nsSet_ne k v e ns h]
  | seq a b iha ihb =>
    intro ns h
    simp only [keysStmt, List.mem_append] at h
    push_neg at h
    simp [exec, iha ns h.1, ihb ns h.2]
  | ite c t e iht ihe =>
    intro ns h
    simp only [keysStmt, List.mem_append] at h
    push_neg at h
    simp [exec, evalB_nsSet_ne k v c ns h.1.1, iht ns h.1.2, ihe ns h.2]

/-- Parsing step: a `store_true` flag. -/
theorem parseTokens_cons_store (specs : List ArgSpec) (ns : NS) (tok : String)
    (rest : List String) (sp : ArgSpec) (hf : findSpec specs tok = some sp)
    (hst : sp.storeTrue = true) :
    parseTokens specs ns (tok :: rest)
      = parseTokens specs (nsSet ns sp.dest (.vbool true)) rest := by
  simp [parseTokens, hf, hst]

/-- Parsing step: a `type=int` option with a valid value. -/
theorem parseTokens_cons_int (specs : List ArgSpec) (ns : NS) (tok v : String)
    (rest2 : List String) (sp : ArgSpec) (m : Int) (hf : findSpec specs tok = some sp)
    (hst : sp.storeTrue = false) (hol : optionLike v = false)
    (hint : sp.isInt = true) (hpi : pyToInt v = some m) :
    parseTokens specs ns (tok :: v :: rest2)
      = parseTokens specs (nsSet ns sp.dest (.vint m)) rest2 := by
  simp [parseTokens, hf, hst, hol, hint, hpi]

/-- Parsing step: a string option with a valid choice. -/
theorem parseTokens_cons_choice (specs : List ArgSpec) (ns : NS) (tok v : String)
    (rest2 : List String) (sp : ArgSpec) (cs : List String)
    (hf : findSpec specs tok = some sp) (hst : sp.storeTrue = false)
    (hol : optionLike v = false) (hint : sp.isInt = false)
    (hch : sp.choices = some cs) (hv : v ∈ cs) :
    parseTokens specs ns (tok :: v :: rest2)
      = parseTokens specs (nsSet ns sp.dest (.vstr v)) rest2 := by
  simp [parseTokens, hf, hst, hol, hint, hch, hv]

/-- Parsing step: an unconstrained string option. -/
theorem parseTokens_cons_plain (specs : List ArgSpec) (ns : NS) (tok v : String)
    (rest2 : List String) (sp : ArgSpec)
    (hf : findSpec specs tok = some sp) (hst : sp.storeTrue = false)
    (hol : optionLike v = false) (hint : sp.isInt = false)
    (hch : sp.choices = none) :
    parseTokens specs ns (tok :: v :: rest2)
      = parseTokens specs (nsSet ns sp.dest (.vstr v)) rest2 := by
  simp [parseTokens, hf, hst, hol, hint, hch]

/-- Inversion of one successful parsing step. -/
theorem parseTokens_cons_ok (specs : List ArgSpec) (ns : NS) (tok : String)
    (rest : List String) (ns1 : NS)
    (h : parseTokens specs ns (tok :: rest) = .ok ns1) :
    ∃ sp, findSpec specs tok = some sp ∧
      ((sp.storeTrue = true ∧
          parseTokens specs (nsSet ns sp.dest (.vbool true)) rest = .ok ns1) ∨
       (sp.storeTrue = false ∧ ∃ v rest2, rest = v :: rest2 ∧ optionLike v = false ∧
         ((sp.isInt = true ∧ ∃ m, pyToInt v = some m ∧
             parseTokens specs (nsSet ns sp.dest (.vint m)) rest2 = .ok ns1) ∨
          (sp.isInt = false ∧
            ((∃ cs, sp.choices = some cs ∧ v ∈ cs) ∨ sp.choices = none) ∧
            parseTokens specs (nsSet ns sp.dest (.vstr v)) rest2 = .ok ns1)))) := by
  simp only [parseTokens] at h
  split at h
  · exact absurd h (by simp)
  · rename_i sp hf
    refine ⟨sp, hf, ?_⟩
    split at h
    · rename_i hst
      exact Or.inl ⟨hst, h⟩
    · rename_i hst
      split at h
      · exact absurd h (by simp)
      · rename_i v rest2
        refine Or.inr ⟨Bool.eq_false_iff.mpr hst, v, rest2, rfl, ?_⟩
        split at h
        · exact absurd h (by simp)
        · rename_i hol
          refine ⟨Bool.eq_false_iff.mpr hol, ?_⟩
          split at h
          · rename_i hint
            split at h
            · exact absurd h (by simp)
            · rename_i m hpi
              exact Or.inl ⟨hint, m, hpi, h⟩
          · rename_i hint
            split at h
            · rename_i cs hch
              split at h
              · rename_i hv
                exact Or.inr ⟨Bool.eq_false_iff.mpr hint, Or.inl ⟨cs, hch, hv⟩, h⟩
              · exact absurd h (by simp)
            · rename_i hch
              exact Or.inr ⟨Bool.eq_false_iff.mpr hint, Or.inr hch, h⟩

/-- Tokens already parsed successfully keep their effect when more tokens
follow. -/
theorem parseTokens_append (specs : List ArgSpec) (b : List String) :
    ∀ (n : Nat) (a : List String), a.length ≤ n → ∀ (ns ns1 : NS),
      parseTokens specs ns a = .ok ns1 →
      parseTokens specs ns (a ++ b) = parseTokens specs ns1 b := by
  intro n
  induction n with
  | zero =>
    intro a ha ns ns1 h
    have ha0 : a = [] := List.eq_nil_of_length_eq_zero (Nat.le_zero.mp ha)
    subst ha0
    simp only [parseTokens] at h
    cases h
    rfl
  | succ n ih =>
    intro a ha ns ns1 h
    match a with
    | [] =>
      simp only [parseTokens] at h
      cases h
      rfl
    | tok :: rest =>
      obtain ⟨sp, hf, hcase⟩ := parseTokens_cons_ok specs ns tok rest ns1 h
      rcases hcase with ⟨hst, h2⟩ | ⟨hst, v, rest2, rfl, hol, hcase2⟩
      · rw [List.cons_append, parseTokens_cons_store specs ns tok (rest ++ b) sp hf hst]
        refine ih rest ?_ _ _ h2
        simp only [List.length_cons] at ha
        omega
      · rcases hcase2 with ⟨hint, m, hpi, h2⟩ | ⟨hint, hch, h2⟩
        · rw [List.cons_append, List.cons_append,
              parseTokens_cons_int specs ns tok v (rest2 ++ b) sp m hf hst hol hint hpi]
          refine ih rest2 ?_ _ _ h2
          simp only [List.length_cons] at ha
          omega
        · rcases hch with ⟨cs, hch, hv⟩ | hch
          · rw [List.cons_append, List.cons_append,
                parseTokens_cons_choice specs ns tok v (rest2 ++ b) sp cs hf hst hol hint
                  hch hv]
            refine ih rest2 ?_ _ _ h2
            simp only [List.length_cons] at ha
            omega
          · rw [List.cons_append, List.cons_append,
                parseTokens_cons_plain specs ns tok v (rest2 ++ b) sp hf hst hol hint hch]
            refine ih rest2 ?_ _ _ h2
            simp only [List.length_cons] at ha
            omega

/-- The usable form of `parseTokens_append`. -/
theorem parseTokens_append_ok (specs : List ArgSpec) (b a : List String) (ns ns1 : NS)
    (h : parseTokens specs ns a = .ok ns1) :
    parseTokens specs ns (a ++ b) = parseTokens specs ns1 b :=
  parseTokens_append specs b a.length a le_rfl ns ns1 h

/-- Remove every `--dry-run` token from an argument list. -/
def stripDry (argv : List String) : List String :=
  argv.filter (fun t => t ≠ "--dry-run")

/-- Removing the `--dry-run` flag tokens from an accepted argument list
yields an accepted list whose namespace differs only in the `dry_run`
destination.  The hypotheses record what holds of every fleet parser:
`--dry-run` is a `store_true` option with destination `dry_run`, and no
other option writes that destination. -/
theorem parseTokens_stripDry (specs : List ArgSpec) (dsp : ArgSpec)
    (hdry : findSpec specs "--dry-run" = some dsp) (hst : dsp.storeTrue = true)
    (hdest : dsp.dest = "dry_run")
    (huniq : ∀ sp ∈ specs, sp.dest = "dry_run" → sp.flags = ["--dry-run"]) :
    ∀ (n : Nat) (a : List String), a.length ≤ n → ∀ (ns ns1 : NS),
      parseTokens specs ns a = .ok ns1 →
      parseTokens specs (nsSet ns "dry_run" (.vbool false)) (stripDry a)
        = .ok (nsSet ns1 "dry_run" (.vbool false)) := by
  intro n
  induction n with
  | zero =>
    intro a ha ns ns1 h
    have ha0 : a = [] := List.eq_nil_of_length_eq_zero (Nat.le_zero.mp ha)
    subst ha0
    simp only [parseTokens] at h
    cases h
    rfl
  | succ n ih =>
    intro a ha ns ns1 h
    match a with
    | [] =>
      simp only [parseTokens] at h
      cases h
      rfl
    | tok :: rest =>
      obtain ⟨sp, hf, hcase⟩ := parseTokens_cons_ok specs ns tok rest ns1 h
      have hmem : sp ∈ specs := List.mem_of_find?_eq_some hf
      have htok : tok ∈ sp.flags := by
        have hp := List.find?_some hf
        simpa using hp
      by_cases htd : tok = "--dry-run"
      · subst htd
        have hspd : sp = dsp := by
          rw [hf] at hdry
          cases hdry
          rfl
        subst hspd
        rcases hcase with ⟨_, h2⟩ | ⟨hstf, _⟩
        · have hstrip : stripDry ("--dry-run" :: rest) = stripDry rest := by
            simp [stripDry]
          rw [hstrip]
          have hrec := ih rest ?_ _ _ h2
          · rw [hdest, nsSet_nsSet_same] at hrec
            exact hrec
          · simp only [List.length_cons] at ha
            omega
        · rw [hstf] at hst
          exact absurd hst (by simp)
      · have hdne : sp.dest ≠ "dry_run" := by
          intro hd
          have hfl := huniq sp hmem hd
          rw [hfl] at htok
          simp only [List.mem_singleton] at htok
          exact htd htok
        have hstrip : stripDry (tok :: rest) = tok :: stripDry rest := by
          simp [stripDry, htd]
        rcases hcase with ⟨hst2, h2⟩ | ⟨hst2, v, rest2, rfl, hol, hcase2⟩
        · rw [hstrip, parseTokens_cons_store specs _ tok (stripDry rest) sp hf hst2,
              nsSet_comm "dry_run" sp.dest (.vbool false) (.vbool true) (Ne.symm hdne) ns]
          refine ih rest ?_ _ _ h2
          simp only [List.length_cons] at ha
          omega
        · have hvne : v ≠ "--dry-run" := by
            intro hv
            subst hv
            exact absurd hol (by decide)
          have hstrip2 : stripDry (tok :: v :: rest2) = tok :: v :: stripDry rest2 := by
            simp [stripDry, htd, hvne]
          rcases hcase2 with ⟨hint, m, hpi, h2⟩ | ⟨hint, hch, h2⟩
          · rw [hstrip2,
                parseTokens_cons_int specs _ tok v (stripDry rest2) sp m hf hst2 hol hint
                  hpi,
                nsSet_comm "dry_run" sp.dest (.vbool false) (.vint m) (Ne.symm hdne) ns]
            refine ih rest2 ?_ _ _ h2
            simp only [List.length_cons] at ha
            omega
          · rcases hch with ⟨cs, hch, hv⟩ | hch
            · rw [hstrip2,
                  parseTokens_cons_choice specs _ tok v (stripDry rest2) sp cs hf hst2 hol
                    hint hch hv,
                  nsSet_comm "dry_run" sp.dest (.vbool false) (.vstr v) (Ne.symm hdne) ns]
              refine ih rest2 ?_ _ _ h2
              simp only [List.length_cons] at ha
              omega
            · rw [hstrip2,
                  parseTokens_cons_plain specs _ tok v (stripDry rest2) sp hf hst2 hol
                    hint hch,
                  nsSet_comm "dry_run" sp.dest (.vbool false) (.vstr v) (Ne.symm hdne) ns]
              refine ih rest2 ?_ _ _ h2
              simp only [List.length_cons] at ha
              omega

/-- Claim C9: for every agent script and every argument list its parser
accepts, appending `--dry-run` still parses — to the same namespace but
for the `dry_run` field — and removing every `--dry-run` token likewise;
in both cases the printed lines and the exit status are unchanged,
because no script ever reads `args.dry_run`. -/
theorem agent_dry_run_transparent :
    ∀ p ∈ fleet, ∀ (argv : List String) (ns : NS),
      parseArgs p.specs argv = .ok ns →
      (parseArgs p.specs (argv ++ ["--dry-run"])
          = .ok (nsSet ns "dry_run" (.vbool true)) ∧
        runAgent p (nsSet ns "dry_run" (.vbool true)) = runAgent p ns) ∧
      (parseArgs p.specs (stripDry argv) = .ok (nsSet ns "dry_run" (.vbool false)) ∧
        runAgent p (nsSet ns "dry_run" (.vbool false)) = runAgent p ns) := by
  have hdryb : ∀ p ∈ fleet,
      ((findSpec p.specs "--dry-run").any
        (fun dsp => dsp.storeTrue && (dsp.dest == "dry_run"))) = true := by decide
  have huniq : ∀ p ∈ fleet, ∀ sp ∈ p.specs, sp.dest = "dry_run" →
      sp.flags = ["--dry-run"] := by decide
  have hkeys : ∀ p ∈ fleet, "dry_run" ∉ keysStmt p.prog := by decide
  have hinit : ∀ p ∈ fleet,
      nsSet (initNS p.specs) "dry_run" (.vbool false) = initNS p.specs := by decide
  intro p hp argv ns hparse
  obtain ⟨dsp, hf, hst, hdest⟩ : ∃ dsp, findSpec p.specs "--dry-run" = some dsp ∧
      dsp.storeTrue = true ∧ dsp.dest = "dry_run" := by
    have hb := hdryb p hp
    cases hfs : findSpec p.specs "--dry-run" with
    | none => rw [hfs] at hb; simp [Option.any] at hb
    | some dsp =>
      rw [hfs] at hb
      simp [Option.any] at hb
      exact ⟨dsp, rfl, hb.1, hb.2⟩
  have hrun : ∀ v, runAgent p (nsSet ns "dry_run" v) = runAgent p ns := by
    intro v
    unfold runAgent
    rw [exec_nsSet_ne "dry_run" v p.prog ns (hkeys p hp)]
  refine ⟨⟨?_, hrun _⟩, ⟨?_, hrun _⟩⟩
  · unfold parseArgs at hparse ⊢
    rw [parseTokens_append_ok p.specs ["--dry-run"] argv _ ns hparse]
    rw [parseTokens_cons_store p.specs ns "--dry-run" [] dsp hf hst, hdest]
    rfl
  · unfold parseArgs at hparse ⊢
    have hres := parseTokens_stripDry p.specs dsp hf hst hdest (huniq p hp)
      argv.length argv le_rfl (initNS p.specs) ns hparse
    rw [hinit p hp] at hres
    exact hres

/-- Claim C9 witness: the first fleet script on the empty argument list —
turning the dry-run field on changes nothing observable. -/
theorem agent_dry_run_transparent_witness :
    runAgent (fleet.get ⟨0, by decide⟩)
        (nsSet (initNS architectSpecs) "dry_run" (.vbool true))
      = runAgent (fleet.get ⟨0, by decide⟩) (initNS architectSpecs) :=
  ((agent_dry_run_transparent (fleet.get ⟨0, by decide⟩) (List.get_mem _ _ _)
      [] (initNS architectSpecs) rfl).1).2

/-- Resolving one gate reads back as written and leaves others alone. -/
theorem lookupAp_setAp (w : Workflow) (i : Nat) (st : ApStatus) (j : Nat) :
    lookupAp (setAp w i st) j = if j = i then some st else lookupAp w j := rfl

/-- Requesting a gate creates it `pending` only when absent. -/
theorem lookupAp_requestGate (w : Workflow) (j : Nat) :
    lookupAp (requestGate w) j
      = if j = w.started then some ((lookupAp w w.started).getD .pending)
        else lookupAp w j := rfl

/-- The invariant holds of a freshly created workflow. -/
theorem engineInv_init (base : Nat) (specs : List StepSpec) :
    EngineInv base specs (mkWorkflow base specs) := by
  refine ⟨rfl, rfl, ?_, ?_, ?_, fun _ => rfl, ?_, ?_⟩
  · exact Nat.zero_le _
  · intro i _ hmem
    simp [mkWorkflow] at hmem
  · intro i hap
    simp [mkWorkflow, lookupAp] at hap
  · intro h
    simp [mkWorkflow] at h
  · intro h
    simp [mkWorkflow] at h

/-- Every engine transition preserves the invariant. -/
theorem engineInv_step (base : Nat) (specs : List StepSpec) (w w' : Workflow)
    (hinv : EngineInv base specs w) (hs : WfStep w w') : EngineInv base specs w' := by
  obtain ⟨h1, h2, h3, h4, h5, h6, h7, h8⟩ := hinv
  cases hs with
  | start_begin hc hlt hg =>
    refine ⟨h1, ?_, ?_, ?_, ?_, ?_, ?_, ?_⟩
    · show w.invoked ++ [w.started] = List.range (w.started + 1)
      rw [h2, List.range_succ]
    · show w.started + 1 ≤ w.steps.length
      omega
    · intro i hgated hmem
      rcases List.mem_append.mp hmem with hm | hm
      · exact h4 i hgated hm
      · simp only [List.mem_singleton] at hm
        subst hm
        have hgt : nextGated w = true := hgated
        rw [hg] at hgt
        exact absurd hgt (by decide)
    · intro i hap
      exact absurd ((h5 i hap).1.symm.trans hc) (by decide)
    · intro hcr; simp [beginNext] at hcr
    · intro hcr; simp [beginNext] at hcr
    · intro hcr; simp [beginNext] at hcr
  | start_gate hc hlt hg =>
    refine ⟨h1, h2, h3, ?_, ?_, ?_, ?_, ?_⟩
    · intro i hgated hmem
      have hmem2 : i ∈ w.invoked := hmem
      have hmr : i < w.started := by
        rw [h2, List.mem_range] at hmem2
        exact hmem2
      rw [lookupAp_requestGate, if_neg (by omega)]
      exact h4 i hgated hmem2
    · intro i hap
      rw [lookupAp_requestGate] at hap
      by_cases hi : i = w.started
      · rw [if_pos hi] at hap
        cases hw : lookupAp w w.started with
        | none =>
          rw [hw] at hap
          rcases hap with hap | hap <;> simp at hap
        | some a =>
          rw [hw] at hap
          simp only [Option.getD_some] at hap
          have h5r := h5 w.started (by
            rcases hap with hap | hap
            · exact Or.inl (by rw [hw]; exact hap)
            · exact Or.inr (by rw [hw]; exact hap))
          exact absurd (h5r.1.symm.trans hc) (by decide)
      · rw [if_neg hi] at hap
        exact absurd ((h5 i hap).1.symm.trans hc) (by decide)
    · intro hcr; simp [requestGate] at hcr
    · intro _
      show w.inFlight = none
      exact h6 hc
    · intro _
      exact hlt
  | start_complete hc hse =>
    refine ⟨h1, h2, h3, h4, ?_, ?_, ?_, ?_⟩
    · intro i hap
      exact absurd ((h5 i hap).1.symm.trans hc) (by decide)
    · intro hcr; simp at hcr
    · intro hcr; simp at hcr
    · intro hcr; simp at hcr
  | exec_done i hc hf =>
    refine ⟨h1, h2, h3, h4, ?_, ?_, ?_, ?_⟩
    · intro j hap
      exact absurd ((h5 j hap).1.symm.trans hc) (by decide)
    · intro hcr; simp [hc] at hcr
    · intro hcr; simp [hc] at hcr
    · intro hcr; simp [hc] at hcr
  | advance_begin hc hif hlt hg =>
    refine ⟨h1, ?_, ?_, ?_, ?_, ?_, ?_, ?_⟩
    · show w.invoked ++ [w.started] = List.range (w.started + 1)
      rw [h2, List.range_succ]
    · show w.started + 1 ≤ w.steps.length
      omega
    · intro i hgated hmem
      rcases List.mem_append.mp hmem with hm | hm
      · exact h4 i hgated hm
      · simp only [List.mem_singleton] at hm
        subst hm
        have hgt : nextGated w = true := hgated
        rw [hg] at hgt
        exact absurd hgt (by decide)
    · intro i hap
      exact absurd ((h5 i hap).1.symm.trans hc) (by decide)
    · intro hcr; simp [beginNext] at hcr
    · intro hcr; simp [beginNext] at hcr
    · intro hcr; simp [beginNext] at hcr
  | advance_gate hc hif hlt hg =>
    refine ⟨h1, h2, h3, ?_, ?_, ?_, ?_, ?_⟩
    · intro i hgated hmem
      have hmem2 : i ∈ w.invoked := hmem
      have hmr : i < w.started := by
        rw [h2, List.mem_range] at hmem2
        exact hmem2
      rw [lookupAp_requestGate, if_neg (by omega)]
      exact h4 i hgated hmem2
    · intro i hap
      rw [lookupAp_requestGate] at hap
      by_cases hi : i = w.started
      · rw [if_pos hi] at hap
        cases hw : lookupAp w w.started with
        | none =>
          rw [hw] at hap
          rcases hap with hap | hap <;> simp at hap
        | some a =>
          rw [hw] at hap
          simp only [Option.getD_some] at hap
          have h5r := h5 w.started (by
            rcases hap with hap | hap
            · exact Or.inl (by rw [hw]; exact hap)
            · exact Or.inr (by rw [hw]; exact hap))
          exact absurd (h5r.1.symm.trans hc) (by decide)
      · rw [if_neg hi] at hap
        exact absurd ((h5 i hap).1.symm.trans hc) (by decide)
    · intro hcr; simp [requestGate] at hcr
    · intro _
      exact hif
    · intro _
      exact hlt
  | advance_complete hc hif hse =>
    refine ⟨h1, h2, h3, h4, ?_, ?_, ?_, ?_⟩
    · intro i hap
      exact absurd ((h5 i hap).1.symm.trans hc) (by decide)
    · intro hcr; simp at hcr
    · intro hcr; simp at hcr
    · intro hcr; simp at hcr
  | approve_resume hc hpend =>
    have hlt : w.started < w.steps.length := h8 hc
    refine ⟨h1, ?_, ?_, ?_, ?_, ?_, ?_, ?_⟩
    · show w.invoked ++ [w.started] = List.range (w.started + 1)
      rw [h2, List.range_succ]
    · show w.started + 1 ≤ w.steps.length
      omega
    · intro i hgated hmem
      show lookupAp (setAp w w.started .approved) i = some .approved
      have hmem2 : i ∈ w.invoked ++ [w.started] := hmem
      rcases List.mem_append.mp hmem2 with hm | hm
      · have hi : i ≠ w.started := by
          rw [h2, List.mem_range] at hm
          omega
        rw [lookupAp_setAp, if_neg hi]
        exact h4 i hgated hm
      · simp only [List.mem_singleton] at hm
        subst hm
        rw [lookupAp_setAp, if_pos rfl]
    · intro i hap
      have hap2 : lookupAp (setAp w w.started .approved) i = some .rejected ∨
          lookupAp (setAp w w.started .approved) i = some .expired := hap
      rw [lookupAp_setAp] at hap2
      by_cases hi : i = w.started
      · rw [if_pos hi] at hap2
        rcases hap2 with hap2 | hap2 <;> simp at hap2
      · rw [if_neg hi] at hap2
        exact absurd ((h5 i hap2).1.symm.trans hc) (by decide)
    · intro hcr; simp [beginNext] at hcr
    · intro hcr; simp [beginNext] at hcr
    · intro hcr; simp [beginNext] at hcr
  | reject_fail hc hpend =>
    refine ⟨h1, h2, h3, ?_, ?_, ?_, ?_, ?_⟩
    · intro i hgated hmem
      have hmem2 : i ∈ w.invoked := hmem
      have hi : i ≠ w.started := by
        rw [h2, List.mem_range] at hmem2
        omega
      show lookupAp (setAp w w.started .rejected) i = some .approved
      rw [lookupAp_setAp, if_neg hi]
      exact h4 i hgated hmem2
    · intro i hap
      refine ⟨rfl, ?_⟩
      have hap2 : lookupAp (setAp w w.started .rejected) i = some .rejected ∨
          lookupAp (setAp w w.started .rejected) i = some .expired := hap
      rw [lookupAp_setAp] at hap2
      by_cases hi : i = w.started
      · subst hi
        show w.started ∉ w.invoked
        rw [h2, List.mem_range]
        omega
      · rw [if_neg hi] at hap2
        exact (h5 i hap2).2
    · intro hcr; simp at hcr
    · intro hcr; simp at hcr
    · intro hcr; simp at hcr
  | expire_fail hc hpend =>
    refine ⟨h1, h2, h3, ?_, ?_, ?_, ?_, ?_⟩
    · intro i hgated hmem
      have hmem2 : i ∈ w.invoked := hmem
      have hi : i ≠ w.started := by
        rw [h2, List.mem_range] at hmem2
        omega
      show lookupAp (setAp w w.started .expired) i = some .approved
      rw [lookupAp_setAp, if_neg hi]
      exact h4 i hgated hmem2
    · intro i hap
      refine ⟨rfl, ?_⟩
      have hap2 : lookupAp (setAp w w.started .expired) i = some .rejected ∨
          lookupAp (setAp w w.started .expired) i = some .expired := hap
      rw [lookupAp_setAp] at hap2
      by_cases hi : i = w.started
      · subst hi
        show w.started ∉ w.invoked
        rw [h2, List.mem_range]
        omega
      · rw [if_neg hi] at hap2
        exact (h5 i hap2).2
    · intro hcr; simp at hcr
    · intro hcr; simp at hcr
    · intro hcr; simp at hcr
  | exec_fail i hc hf =>
    refine ⟨h1, h2, h3, h4, ?_, ?_, ?_, ?_⟩
    · intro j hap
      exact absurd ((h5 j hap).1.symm.trans hc) (by decide)
    · intro hcr; simp at hcr
    · intro hcr; simp at hcr
    · intro hcr; simp at hcr
  | cancel hnc hnf hncl =>
    refine ⟨h1, h2, h3, h4, ?_, ?_, ?_, ?_⟩
    · intro j hap
      exact absurd (h5 j hap).1 hnf
    · intro hcr; simp at hcr
    · intro hcr; simp at hcr
    · intro hcr; simp at hcr

/-- The invariant holds at every reachable state. -/
theorem engineInv_reach (base : Nat) (specs : List StepSpec) (s : Workflow)
    (h : WfReach (mkWorkflow base specs) s) : EngineInv base specs s := by
  induction h with
  | refl => exact engineInv_init base specs
  | step hr hs ih => exact engineInv_step base specs _ _ ih hs

/-- Claim C6: in the spec-modelled Workflow Engine, every reachable state
keeps the assigned `step_order` values unique and contiguous from the
configured base index (0 or 1); agents are invoked in strictly ascending
`step_order`; and a new step only ever begins while no execution is in
flight, so steps of one workflow never run concurrently. -/
theorem workflow_step_order_discipline :
    ∀ (base : Nat) (specs : List StepSpec) (s : Workflow),
      (base = 0 ∨ base = 1) →
      WfReach (mkWorkflow base specs) s →
      (s.steps.map Prod.fst = List.range' base specs.length ∧
        (s.steps.map Prod.fst).Nodup ∧
        (∀ i ∈ s.invoked, (s.steps.map Prod.fst)[i]? = some (base + i)) ∧
        List.Pairwise (· < ·) (s.invoked.map (fun i => base + i))) ∧
      (∀ s', WfStep s s' → s.invoked.length < s'.invoked.length → s.inFlight = none) := by
  intro base specs s hb hr
  obtain ⟨h1, h2, h3, h4, h5, h6, h7, h8⟩ := engineInv_reach base specs s hr
  have hsteps : s.steps.map Prod.fst = List.range' base specs.length := by
    rw [h1]
    exact List.map_fst_zip _ _ (by simp)
  have hslen : s.steps.length = specs.length := by
    rw [h1]
    simp
  refine ⟨⟨hsteps, ?_, ?_, ?_⟩, ?_⟩
  · rw [hsteps, List.range'_eq_map_range]
    exact (List.nodup_range specs.length).map (add_right_injective base)
  · intro i hi
    rw [hsteps]
    have hlen : i < specs.length := by
      rw [h2, List.mem_range] at hi
      omega
    simp [List.getElem?_range', hlen]
  · rw [h2]
    refine List.Pairwise.map _ ?_ (List.pairwise_lt_range s.started)
    intro a b hab
    omega
  · intro s' hs hgrow
    cases hs with
    | start_begin hc _ _ => exact h6 hc
    | start_gate _ _ _ => exact absurd hgrow (by simp [requestGate])
    | start_complete _ _ => exact absurd hgrow (by simp)
    | exec_done i hc hf => exact absurd hgrow (by simp)
    | advance_begin _ hif _ _ => exact hif
    | advance_gate _ _ _ _ => exact absurd hgrow (by simp [requestGate])
    | advance_complete _ _ _ => exact absurd hgrow (by simp)
    | approve_resume hc _ => exact h7 hc
    | reject_fail _ _ => exact absurd hgrow (by simp [setAp])
    | expire_fail _ _ => exact absurd hgrow (by simp [setAp])
    | exec_fail i _ _ => exact absurd hgrow (by simp)
    | cancel _ _ _ => exact absurd hgrow (by simp)

/-- Claim C7: in the spec-modelled Workflow Engine, a gated step's agent
is invoked only with its Approval resolved `approved`, and a `rejected`
or `expired` resolution leaves the step uninvoked in a failed workflow, at
every reachable state. -/
theorem gated_step_approval_required :
    ∀ (base : Nat) (specs : List StepSpec) (s : Workflow),
      WfReach (mkWorkflow base specs) s →
      ∀ i, stepGated s i = true →
        (i ∈ s.invoked → lookupAp s i = some .approved) ∧
        ((lookupAp s i = some .rejected ∨ lookupAp s i = some .expired) →
          i ∉ s.invoked ∧ s.status = .failed) := by
  intro base specs s hr i hg
  obtain ⟨_, _, _, h4, h5, _, _, _⟩ := engineInv_reach base specs s hr
  exact ⟨h4 i hg, fun hap => ⟨(h5 i hap).2, (h5 i hap).1⟩⟩

/-- Claim C6 witness: the freshly created one-step workflow. -/
theorem workflow_step_order_discipline_witness :
    (mkWorkflow 0 [{ agentName := "architect-planner", requiresApproval := false }]).steps.map
        Prod.fst = List.range' 0 1 :=
  ((workflow_step_order_discipline 0
      [{ agentName := "architect-planner", requiresApproval := false }]
      (mkWorkflow 0 [{ agentName := "architect-planner", requiresApproval := false }])
      (Or.inl rfl) WfReach.refl).1).1

/-- Claim C7 witness: a one-step gated workflow whose gate has just been
requested. -/
theorem gated_step_approval_required_witness :
    (0 ∈ (requestGate (mkWorkflow 0
          [{ agentName := "code-executioner", requiresApproval := true }])).invoked →
        lookupAp (requestGate (mkWorkflow 0
          [{ agentName := "code-executioner", requiresApproval := true }])) 0
          = some .approved) ∧
    ((lookupAp (requestGate (mkWorkflow 0
          [{ agentName := "code-executioner", requiresApproval := true }])) 0
          = some .rejected ∨
      lookupAp (requestGate (mkWorkflow 0
          [{ agentName := "code-executioner", requiresApproval := true }])) 0
          = some .expired) →
      0 ∉ (requestGate (mkWorkflow 0
          [{ agentName := "code-executioner", requiresApproval := true }])).invoked ∧
      (requestGate (mkWorkflow 0
          [{ agentName := "code-executioner", requiresApproval := true }])).status
        = WfStatus.failed) :=
  gated_step_approval_required 0
    [{ agentName := "code-executioner", requiresApproval := true }]
    (requestGate (mkWorkflow 0 [{ agentName := "code-executioner", requiresApproval := true }]))
    (WfReach.step WfReach.refl
      (WfStep.start_gate
        (mkWorkflow 0 [{ agentName := "code-executioner", requiresApproval := true }])
        rfl (by decide) rfl))
    0 rfl

end MissionControl
